import Mathlib

/- Verification development for the poUIrup input-remapping engine.

   Shallow embedding of:
   - source/main.py  : gesture recognizer, pointer/trackpad adapters, event tracing
   - src/app.py      : layered key-remap engine with dual-role sticky keys
   - source/util.py  : single-instance takeover polling

   Python floats are idealized as real numbers (geometry) or rationals
   (timestamps and configuration thresholds); Python dicts and sets become
   functions with explicit finite supports / Finsets. -/

open Real

open Classical in
/-- Python float modulo: x % y = x - y * floor (x / y); result carries the
    sign of the divisor, matching CPython semantics for finite operands. -/
noncomputable def pymod (x y : ℝ) : ℝ := x - y * ⌊x / y⌋

/-- The four compass tokens of a gesture, in the tuple order ("E","S","W","N")
    used by main.py. -/
inductive GestureMovement
  | E
  | S
  | W
  | N
deriving DecidableEq, Repr

/-- Indexing of the Python tuple ("E","S","W","N"); the quantized sector index
    always lies in [0,4), so the final catch-all arm is only reached at 3. -/
def movementFromIndex (i : ℤ) : GestureMovement :=
  if i = 0 then .E else if i = 1 then .S else if i = 2 then .W else .N

/-- Direction quantization from _update_gesture_from_new_displacement:
    direction = (cmath.phase(d) + tau/8) % tau, movement = tuple[int(direction/(tau/4))].
    Complex.arg, like cmath.phase, returns the principal argument in (-pi, pi]. -/
noncomputable def movementOfDisplacement (d : ℂ) : GestureMovement :=
  movementFromIndex ⌊pymod (Complex.arg d + π / 4) (2 * π) / (π / 2)⌋

/-- The quantization as worded by the spec: rotate the displacement angle by
    +45 degrees, reduce modulo 360 degrees, and take floor(angle / 90) as the
    sector index. Stated in degrees to mirror the spec text; compared against
    the radian-based source definition in the C3 theorem. -/
noncomputable def specMovementOfDisplacement (d : ℂ) : GestureMovement :=
  movementFromIndex ⌊pymod (Complex.arg d * (180 / π) + 45) 360 / 90⌋

/-- Which adapter currently owns the gesture session. -/
inductive GestureSource
  | mouse
  | trackpad
deriving DecidableEq, Repr

/-- GestureState from main.py. -/
structure GestureState where
  gestureSource : Option GestureSource
  gestureRecognized : List GestureMovement
  pendingMovement : Option GestureMovement
  pendingMovementDistance : ℝ
  isGesturePaused : Bool

/-- Pending-movement reset step of _update_gesture_from_new_displacement:
    "if gesture_state.is_gesture_paused or movement != gesture_state.pending_movement". -/
def gesturePendingReset (g : GestureState) (m : GestureMovement) : GestureState :=
  if g.isGesturePaused = true ∨ some m ≠ g.pendingMovement then
    { g with pendingMovement := some m, pendingMovementDistance := 0 }
  else g

/-- Distance accumulation step:
    "gesture_state.pending_movement_distance += abs(new_displacement_inches)". -/
def gestureAddDistance (g : GestureState) (dist : ℝ) : GestureState :=
  { g with pendingMovementDistance := g.pendingMovementDistance + dist }

open Classical in
/-- Duplicate-suppression and threshold-append steps of
    _update_gesture_from_new_displacement. -/
noncomputable def gestureEmit (g : GestureState) (m : GestureMovement) : GestureState :=
  if g.isGesturePaused = false ∧ g.gestureRecognized.getLast? = some m then g
  else if (0.25 : ℝ) ≤ g.pendingMovementDistance then
    { g with gestureRecognized := g.gestureRecognized ++ [m], isGesturePaused := false }
  else g

open Classical in
/-- _update_gesture_from_new_displacement(gesture_state, d, t): the recognizer
    core. Mirrors the Python statement order: low-speed pause check, direction
    quantization, pending reset, distance accumulation, duplicate suppression,
    threshold append. -/
noncomputable def updateGestureFromNewDisplacement (g : GestureState) (d : ℂ)
    (t : ℝ) : GestureState :=
  if Complex.abs d / t < 3 then
    if 0 < g.gestureRecognized.length then { g with isGesturePaused := true } else g
  else
    gestureEmit
      (gestureAddDistance (gesturePendingReset g (movementOfDisplacement d))
        (Complex.abs d))
      (movementOfDisplacement d)

/-- An uninterrupted run of feed calls, sample after sample. -/
noncomputable def feedRun (g : GestureState) (L : List (ℂ × ℝ)) : GestureState :=
  L.foldl (fun g p => updateGestureFromNewDisplacement g p.1 p.2) g

/-- Button identifiers delivered by the hook layer. -/
inductive ButtonId
  | rightButton
  | leftButton
  | middleButton
  | otherButton (n : ℕ)
deriving DecidableEq, Repr

/-- hook.WindowInfo: title may be absent, owner application name is not. -/
structure WindowInfo where
  title : Option String
  ownerAppName : String
deriving DecidableEq, Repr

/-- One line of the JSON event trace, by kind and payload. -/
inductive TraceLine
  | keyPressTrace (modifiers : List ℕ) (key : ℕ)
  | mouseButtonTrace (modifiers : List ℕ) (button : ButtonId) (clickLevel : ℤ)
  | mouseWheelTrace (modifiers : List ℕ) (dy dx : ℤ)
  | trackpadGestureTrace (gesture : List GestureMovement)
  | windowChangeTrace (window : String) (ownerApp : String)
deriving DecidableEq, Repr

/-- MouseState from main.py (pressed_buttons is carried but never used by the
    handlers). Positions are complex pixels, times real seconds. -/
structure MouseState where
  pressedButtons : Finset ButtonId
  isMakingGesture : Bool
  recordedPosition : ℂ
  recordedTime : ℝ

/-- A finger-id to position dict: its key set and the positions (in inches,
    as complex numbers) of the keys; values outside ids are irrelevant. -/
structure FingerMap where
  ids : Finset ℕ
  pos : ℕ → ℂ

/-- TrackpadState from main.py. -/
structure TrackpadState where
  isMakingGesture : Bool
  fingersMakingGesture : Finset ℕ
  prevRecordedFingerPositions : FingerMap
  prevRecordedTime : ℝ
  currRecordedFingerPositions : FingerMap

/-- TrackerState from main.py (the tracing bookkeeping). Wheel timestamps are
    rationals. -/
structure TrackerState where
  pressedKeysAndButtons : Finset (ℕ ⊕ ButtonId)
  prevMouseWheelScrollTime : ℚ
  prevActiveWindowInfo : Option WindowInfo

/-- _detect_and_log_window_change_if_needed: record and log the active window
    when it differs (structural inequality) from the last observed one. -/
def detectAndLogWindowChangeIfNeeded (tr : TrackerState) (active : WindowInfo) :
    TrackerState × List TraceLine :=
  if some active ≠ tr.prevActiveWindowInfo then
    ({ tr with prevActiveWindowInfo := some active },
      [.windowChangeTrace (active.title.getD "") active.ownerAppName])
  else (tr, [])

/-- _handle_hook_key_pressing of the tracing variant: returns the suppression
    flag, the new tracker state and the emitted trace lines. The hook-state
    inputs (active window, active modifiers) and the hook constant
    MODIFIER_BY_OPTIONALLY_PAIRED_KEY (its key set) are passed as arguments. -/
def handleHookKeyPressing (modifierPairedKeys : Finset ℕ) (tr : TrackerState)
    (active : WindowInfo) (activeModifiers : List ℕ) (key : ℕ)
    (isNativeRepeat : Bool) : Bool × TrackerState × List TraceLine :=
  if Sum.inl key ∉ tr.pressedKeysAndButtons ∧ key ∉ modifierPairedKeys then
    (false,
      { (detectAndLogWindowChangeIfNeeded tr active).1 with
        pressedKeysAndButtons :=
          insert (Sum.inl key)
            (detectAndLogWindowChangeIfNeeded tr active).1.pressedKeysAndButtons },
      (detectAndLogWindowChangeIfNeeded tr active).2
        ++ [.keyPressTrace activeModifiers key])
  else (false, tr, [])

/-- _handle_hook_key_releasing of the tracing variant. -/
def handleHookKeyReleasing (tr : TrackerState) (key : ℕ) :
    Bool × TrackerState :=
  (false, { tr with
    pressedKeysAndButtons := tr.pressedKeysAndButtons.erase (Sum.inl key) })

/-- Sign clamp used for the wheel trace fields: int(q > 0) - int(q < 0). -/
def qsign (q : ℚ) : ℤ := (if 0 < q then 1 else 0) - (if q < 0 then 1 else 0)

/-- _handle_hook_mouse_wheel_scrolling: for non-momentum events the throttle
    timestamp is updated unconditionally, then events closer than 0.125 s to
    the previous one are dropped; surviving events log a wheel line with
    sign-clamped components. The displacement is a (real, imaginary) pair. -/
def handleHookMouseWheelScrolling (tr : TrackerState) (active : WindowInfo)
    (activeModifiers : List ℕ) (scrollDisplacement : ℚ × ℚ)
    (isContinuous : Bool) (isDoneByMomentum : Bool) (currTime : ℚ) :
    Bool × TrackerState × List TraceLine :=
  if isDoneByMomentum = false then
    if currTime - tr.prevMouseWheelScrollTime < 0.125 then
      (false, { tr with prevMouseWheelScrollTime := currTime }, [])
    else
      (false,
        (detectAndLogWindowChangeIfNeeded
          { tr with prevMouseWheelScrollTime := currTime } active).1,
        (detectAndLogWindowChangeIfNeeded
          { tr with prevMouseWheelScrollTime := currTime } active).2
          ++ [.mouseWheelTrace activeModifiers (qsign scrollDisplacement.2)
                (qsign scrollDisplacement.1)])
  else (false, tr, [])

/-- _update_gesture_from_mouse: rate-limit to one sample per 1/24 s, convert
    pixels to inches by the 216 px/inch calibration, advance the reference
    sample, and feed the recognizer. -/
noncomputable def updateGestureFromMouse (g : GestureState) (ms : MouseState)
    (newCursorPosition : ℂ) (currTime : ℝ) : GestureState × MouseState :=
  if currTime - ms.recordedTime < 1/24 then (g, ms)
  else
    (updateGestureFromNewDisplacement g
        ((newCursorPosition - ms.recordedPosition) / 216)
        (currTime - ms.recordedTime),
      { ms with recordedPosition := newCursorPosition, recordedTime := currTime })

open Classical in
/-- _handle_hook_mouse_cursor_moving. -/
noncomputable def handleHookMouseCursorMoving (ms : MouseState)
    (g : GestureState) (newPos : ℂ) (currTime : ℝ) : MouseState × GestureState :=
  if ms.isMakingGesture = true then
    ((updateGestureFromMouse g ms newPos currTime).2,
      (updateGestureFromMouse g ms newPos currTime).1)
  else (ms, g)

open Classical in
/-- _handle_hook_mouse_button_pressing: the gesture-start path (feature flag
    _ALLOW_GESTURES_BY_RIGHT_BUTTON passed as allowRB) or the tracing path. -/
def handleHookMouseButtonPressing (allowRB : Bool) (ms : MouseState)
    (tr : TrackerState) (g : GestureState) (button : ButtonId)
    (clickLevel : ℤ) (cursorPos : ℂ) (now : ℝ) (active : WindowInfo)
    (activeModifiers : List ℕ) :
    Bool × MouseState × TrackerState × GestureState × List TraceLine :=
  if button = .rightButton ∧ clickLevel = 1 ∧ allowRB = true
      ∧ g.gestureSource = none then
    (true,
      { ms with isMakingGesture := true, recordedPosition := cursorPos,
                recordedTime := now },
      tr, { g with gestureSource := some .mouse }, [])
  else if Sum.inr button ∉ tr.pressedKeysAndButtons then
    (false, ms,
      { (detectAndLogWindowChangeIfNeeded tr active).1 with
        pressedKeysAndButtons :=
          insert (Sum.inr button)
            (detectAndLogWindowChangeIfNeeded tr active).1.pressedKeysAndButtons },
      g,
      (detectAndLogWindowChangeIfNeeded tr active).2
        ++ [.mouseButtonTrace activeModifiers button clickLevel])
  else (false, ms, tr, g, [])

/-- Session reset performed by the pointer release path: note that
    pending_movement_distance and is_gesture_paused are not touched there. -/
def gestureMouseEndReset (g : GestureState) : GestureState :=
  { g with gestureSource := none, gestureRecognized := [], pendingMovement := none }

/-- Result of _handle_hook_mouse_button_releasing: suppression flag, updated
    states, the gesture passed to _perform_gestured_action (if any), and
    whether the original click was re-synthesized. -/
structure MouseReleaseResult where
  suppress : Bool
  mouse : MouseState
  tracker : TrackerState
  gesture : GestureState
  performed : Option (List GestureMovement)
  emulatedClick : Bool

/-- _handle_hook_mouse_button_releasing. -/
def handleHookMouseButtonReleasing (allowRB : Bool) (ms : MouseState)
    (tr : TrackerState) (g : GestureState) (button : ButtonId)
    (clickLevel : ℤ) : MouseReleaseResult :=
  if allowRB = true ∧ button = .rightButton ∧ clickLevel = 1 then
    if ms.isMakingGesture = true then
      if 0 < g.gestureRecognized.length then
        { suppress := true, mouse := { ms with isMakingGesture := false },
          tracker := tr, gesture := gestureMouseEndReset g,
          performed := some g.gestureRecognized, emulatedClick := false }
      else
        { suppress := true, mouse := { ms with isMakingGesture := false },
          tracker := tr, gesture := gestureMouseEndReset g,
          performed := none, emulatedClick := true }
    else
      { suppress := true, mouse := ms, tracker := tr, gesture := g,
        performed := none, emulatedClick := true }
  else
    { suppress := false, mouse := ms,
      tracker := { tr with
        pressedKeysAndButtons := tr.pressedKeysAndButtons.erase (Sum.inr button) },
      gesture := g, performed := none, emulatedClick := false }

/-- The fingers present in both maps whose per-finger speed reaches the
    3 inch/s initiation threshold. -/
noncomputable def qualifyingFingers (prevP currP : FingerMap) (interval : ℝ) :
    Finset ℕ :=
  currP.ids.filter
    (fun i => i ∈ prevP.ids ∧ 3 ≤ Complex.abs (currP.pos i - prevP.pos i) / interval)

open Classical in
/-- The tracking-set fingers that have data in both maps (the loop over
    fingers_making_gesture skipping fingers without data). -/
def trackedActive (tp : TrackpadState) (prevP currP : FingerMap) : Finset ℕ :=
  tp.fingersMakingGesture.filter (fun i => i ∈ currP.ids ∧ i ∈ prevP.ids)

/-- Advance the previous-sample bookkeeping of _update_gesture_from_trackpad:
    prev_recorded_time = now, prev_recorded_finger_positions = current map. -/
def trackpadShiftPrev (tp : TrackpadState) (currTime : ℝ) : TrackpadState :=
  { tp with prevRecordedTime := currTime,
            prevRecordedFingerPositions := tp.currRecordedFingerPositions }

/-- Start a session over the given finger set when none is in progress. -/
def trackpadMaybeStart (tp : TrackpadState) (fingers : Finset ℕ) : TrackpadState :=
  if tp.isMakingGesture = false then
    { tp with isMakingGesture := true, fingersMakingGesture := fingers }
  else tp

/-- Mean displacement over the tracking fingers still present in both maps,
    fed to the recognizer; no feed when none moved. -/
noncomputable def trackpadFeedPhase (g : GestureState) (tp : TrackpadState)
    (prevP currP : FingerMap) (interval : ℝ) : GestureState :=
  if (trackedActive tp prevP currP).card = 0 then g
  else
    updateGestureFromNewDisplacement g
      (((trackedActive tp prevP currP).sum (fun i => currP.pos i - prevP.pos i))
        / ((trackedActive tp prevP currP).card : ℂ))
      interval

open Classical in
/-- _update_gesture_from_trackpad: throttle, prev-sample shift, four-finger
    speed-qualified initiation, then the mean-displacement feed. -/
noncomputable def updateGestureFromTrackpad (g : GestureState)
    (tp : TrackpadState) (currTime : ℝ) : GestureState × TrackpadState :=
  if currTime - tp.prevRecordedTime < 1/24 then (g, tp)
  else if tp.isMakingGesture = false
      ∧ (qualifyingFingers tp.prevRecordedFingerPositions
          tp.currRecordedFingerPositions (currTime - tp.prevRecordedTime)).card
        < 4 then
    (g, trackpadShiftPrev tp currTime)
  else
    (trackpadFeedPhase g
        (trackpadMaybeStart (trackpadShiftPrev tp currTime)
          (qualifyingFingers tp.prevRecordedFingerPositions
            tp.currRecordedFingerPositions (currTime - tp.prevRecordedTime)))
        tp.prevRecordedFingerPositions tp.currRecordedFingerPositions
        (currTime - tp.prevRecordedTime),
      trackpadMaybeStart (trackpadShiftPrev tp currTime)
        (qualifyingFingers tp.prevRecordedFingerPositions
          tp.currRecordedFingerPositions (currTime - tp.prevRecordedTime)))

open Classical in
/-- Store the incoming finger map as the current one (first statement of
    _handle_hook_trackpad_finger_positions_updating). -/
def trackpadStoreCurr (tp : TrackpadState) (newPositions : FingerMap) :
    TrackpadState :=
  { tp with currRecordedFingerPositions := newPositions }

/-- Session reset performed by the trackpad end path: is_gesture_paused is
    cleared here (unlike the pointer path) but pending_movement_distance and
    the tracking finger set are not. -/
def gestureTrackpadEndReset (g : GestureState) : GestureState :=
  { g with gestureSource := none, gestureRecognized := [],
           pendingMovement := none, isGesturePaused := false }

/-- Result of _handle_hook_trackpad_finger_positions_updating. -/
structure TrackpadUpdateResult where
  tracker : TrackerState
  trackpad : TrackpadState
  gesture : GestureState
  performed : Option (List GestureMovement)
  lines : List TraceLine

/-- Tail of the trackpad handler: refuse when another source owns the session,
    otherwise attempt initiation when at least four fingers are present and
    claim the session source when one began. -/
noncomputable def trackpadPostPhase (tr : TrackerState) (tp : TrackpadState)
    (g : GestureState) (newPositions : FingerMap) (currTime : ℝ)
    (performed : Option (List GestureMovement)) (lines : List TraceLine) :
    TrackpadUpdateResult :=
  if g.gestureSource ≠ none then ⟨tr, tp, g, performed, lines⟩
  else if 4 ≤ newPositions.ids.card then
    ⟨tr, (updateGestureFromTrackpad g tp currTime).2,
      (if (updateGestureFromTrackpad g tp currTime).2.isMakingGesture = true then
        { (updateGestureFromTrackpad g tp currTime).1 with
          gestureSource := some .trackpad }
      else (updateGestureFromTrackpad g tp currTime).1),
      performed, lines⟩
  else ⟨tr, tp, g, performed, lines⟩

open Classical in
/-- _handle_hook_trackpad_finger_positions_updating: store the new map; end the
    session when every tracking finger is absent from it (performing and
    logging a non-empty gesture); otherwise keep feeding and possibly start a
    session. -/
noncomputable def handleHookTrackpadFingerPositionsUpdating (tr : TrackerState)
    (tp : TrackpadState) (g : GestureState) (newPositions : FingerMap)
    (currTime : ℝ) (active : WindowInfo) : TrackpadUpdateResult :=
  if tp.isMakingGesture = true then
    if ∀ i ∈ tp.fingersMakingGesture, i ∉ newPositions.ids then
      if 0 < g.gestureRecognized.length then
        ⟨(detectAndLogWindowChangeIfNeeded tr active).1,
          { trackpadStoreCurr tp newPositions with isMakingGesture := false },
          gestureTrackpadEndReset g, some g.gestureRecognized,
          (detectAndLogWindowChangeIfNeeded tr active).2
            ++ [.trackpadGestureTrace g.gestureRecognized]⟩
      else
        ⟨tr, { trackpadStoreCurr tp newPositions with isMakingGesture := false },
          gestureTrackpadEndReset g, none, []⟩
    else
      trackpadPostPhase tr
        (updateGestureFromTrackpad g (trackpadStoreCurr tp newPositions) currTime).2
        (updateGestureFromTrackpad g (trackpadStoreCurr tp newPositions) currTime).1
        newPositions currTime none []
  else
    trackpadPostPhase tr (trackpadStoreCurr tp newPositions) g newPositions
      currTime none []

open Classical in
/-- The whole tracing engine state: one value per dataclass instance created in
    main(). -/
structure SystemState where
  mouse : MouseState
  trackpad : TrackpadState
  gesture : GestureState
  tracker : TrackerState

/-- One hook-delivered event together with the ambient inputs the handler
    samples from the outside world (current time, cursor position, active
    window, active modifiers). -/
inductive HookEvent
  | keyPressE (key : ℕ) (isNativeRepeat : Bool) (active : WindowInfo)
      (activeModifiers : List ℕ)
  | keyReleaseE (key : ℕ)
  | buttonPressE (button : ButtonId) (clickLevel : ℤ) (cursorPos : ℂ)
      (now : ℝ) (active : WindowInfo) (activeModifiers : List ℕ)
  | buttonReleaseE (button : ButtonId) (clickLevel : ℤ)
  | cursorMoveE (newPos : ℂ) (now : ℝ)
  | wheelScrollE (scrollDisplacement : ℚ × ℚ) (isContinuous : Bool)
      (isDoneByMomentum : Bool) (now : ℚ) (active : WindowInfo)
      (activeModifiers : List ℕ)
  | trackpadUpdateE (newPositions : FingerMap) (now : ℝ) (active : WindowInfo)

/-- Route one hook event through the corresponding handler, as registered in
    main(), keeping only the state (suppression flags and trace output are
    projected away here). -/
noncomputable def systemStep (allowRB : Bool) (modifierPairedKeys : Finset ℕ)
    (s : SystemState) : HookEvent → SystemState
  | .keyPressE key isNativeRepeat active activeModifiers =>
    { s with tracker := (handleHookKeyPressing modifierPairedKeys s.tracker
        active activeModifiers key isNativeRepeat).2.1 }
  | .keyReleaseE key =>
    { s with tracker := (handleHookKeyReleasing s.tracker key).2 }
  | .buttonPressE button clickLevel cursorPos now active activeModifiers =>
    { s with
      mouse := (handleHookMouseButtonPressing allowRB s.mouse s.tracker
        s.gesture button clickLevel cursorPos now active activeModifiers).2.1,
      tracker := (handleHookMouseButtonPressing allowRB s.mouse s.tracker
        s.gesture button clickLevel cursorPos now active activeModifiers).2.2.1,
      gesture := (handleHookMouseButtonPressing allowRB s.mouse s.tracker
        s.gesture button clickLevel cursorPos now active activeModifiers).2.2.2.1 }
  | .buttonReleaseE button clickLevel =>
    { s with
      mouse := (handleHookMouseButtonReleasing allowRB s.mouse s.tracker
        s.gesture button clickLevel).mouse,
      tracker := (handleHookMouseButtonReleasing allowRB s.mouse s.tracker
        s.gesture button clickLevel).tracker,
      gesture := (handleHookMouseButtonReleasing allowRB s.mouse s.tracker
        s.gesture button clickLevel).gesture }
  | .cursorMoveE newPos now =>
    { s with
      mouse := (handleHookMouseCursorMoving s.mouse s.gesture newPos now).1,
      gesture := (handleHookMouseCursorMoving s.mouse s.gesture newPos now).2 }
  | .wheelScrollE scrollDisplacement isContinuous isDoneByMomentum now active
      activeModifiers =>
    { s with tracker := (handleHookMouseWheelScrolling s.tracker active
        activeModifiers scrollDisplacement isContinuous isDoneByMomentum now).2.1 }
  | .trackpadUpdateE newPositions now active =>
    { s with
      tracker := (handleHookTrackpadFingerPositionsUpdating s.tracker s.trackpad
        s.gesture newPositions now active).tracker,
      trackpad := (handleHookTrackpadFingerPositionsUpdating s.tracker s.trackpad
        s.gesture newPositions now active).trackpad,
      gesture := (handleHookTrackpadFingerPositionsUpdating s.tracker s.trackpad
        s.gesture newPositions now active).gesture }

/-- The state built in main() before the event loop starts. Python initializes
    the reference timestamps to -infinity (so a first sample always passes the
    throttles); here they are parameters, which subsumes that choice. -/
def initialSystemState (p0 : ℂ) (tm tt : ℝ) (q0 : ℚ) : SystemState where
  mouse := { pressedButtons := ∅, isMakingGesture := false,
             recordedPosition := p0, recordedTime := tm }
  trackpad := { isMakingGesture := false, fingersMakingGesture := ∅,
                prevRecordedFingerPositions := ⟨∅, fun _ => 0⟩,
                prevRecordedTime := tt,
                currRecordedFingerPositions := ⟨∅, fun _ => 0⟩ }
  gesture := { gestureSource := none, gestureRecognized := [],
               pendingMovement := none, pendingMovementDistance := 0,
               isGesturePaused := false }
  tracker := { pressedKeysAndButtons := ∅, prevMouseWheelScrollTime := q0,
               prevActiveWindowInfo := none }

/-- States reachable from some initial state by hook events. -/
inductive SystemReachable (allowRB : Bool) (modifierPairedKeys : Finset ℕ) :
    SystemState → Prop
  | base (p0 : ℂ) (tm tt : ℝ) (q0 : ℚ) :
      SystemReachable allowRB modifierPairedKeys (initialSystemState p0 tm tt q0)
  | step (s : SystemState) (e : HookEvent)
      (h : SystemReachable allowRB modifierPairedKeys s) :
      SystemReachable allowRB modifierPairedKeys
        (systemStep allowRB modifierPairedKeys s e)

/-- Sequential processing of a stream of non-momentum wheel events with fixed
    ambient inputs, collecting the emitted trace lines in order. -/
def wheelStream (active : WindowInfo) (activeModifiers : List ℕ)
    (scrollDisplacement : ℚ × ℚ) (isContinuous : Bool) :
    TrackerState → List ℚ → TrackerState × List TraceLine
  | tr, [] => (tr, [])
  | tr, t :: ts =>
    ((wheelStream active activeModifiers scrollDisplacement isContinuous
        (handleHookMouseWheelScrolling tr active activeModifiers
          scrollDisplacement isContinuous false t).2.1 ts).1,
      (handleHookMouseWheelScrolling tr active activeModifiers
        scrollDisplacement isContinuous false t).2.2
        ++ (wheelStream active activeModifiers scrollDisplacement isContinuous
            (handleHookMouseWheelScrolling tr active activeModifiers
              scrollDisplacement isContinuous false t).2.1 ts).2)

/-- Number of mouse_wheel_scroll lines in a trace fragment. -/
def wheelLineCount (lines : List TraceLine) : ℕ :=
  (lines.filter fun l => match l with
    | .mouseWheelTrace _ _ _ => true
    | _ => false).length

/-- The gesture-session exclusivity invariant: the session source is mouse
    exactly when the pointer adapter is mid-gesture, and trackpad exactly when
    the trackpad adapter is. -/
def sourceConsistent (s : SystemState) : Prop :=
  (s.gesture.gestureSource = some .mouse ↔ s.mouse.isMakingGesture = true)
    ∧ (s.gesture.gestureSource = some .trackpad ↔ s.trackpad.isMakingGesture = true)

/-- Configuration of the legacy keyboard engine (src/app.py): the _MODS tuple
    (virtual-key codes of shift/ctrl/alt/cmd followed by the three virtual
    layer modifiers at and above 0x100), the masking key, and the sticky
    timing thresholds (seconds, as rationals). Loaded by configure() from
    external config; parameters here. -/
structure AppConfig where
  mods : List ℤ
  keyMask : ℤ
  minStickyTriggerDuration : ℚ
  maxStickyTriggerDuration : ℚ
  stickyDuration : ℚ

/-- Keyboard class state from src/app.py. The pressed-key dict maps an input
    key to (time_pressed, out_key, tap_key, is_sticky); the per-modifier
    press counters are a defaultdict, modeled as a function together with the
    finite set of keys ever touched (whose values the Python sum() visits). -/
structure KeyboardState where
  pressedMods : Finset ℤ
  shiftLock : Bool
  pressedKeys : ℤ → Option (ℚ × ℤ × ℤ × Bool)
  lastPress : ℚ × ℤ
  lastMod : ℤ
  pressedCountByMod : ℤ → ℤ
  pressedCountKeys : Finset ℤ
  hasStickies : Bool

/-- touch_key: virtual keys (>= 0x100) are filtered out, real keys emit one
    (should_press, key) event to the OS controller. -/
def touchKey (shouldPress : Bool) (outKey : ℤ) : List (Bool × ℤ) :=
  if 0x100 ≤ outKey then [] else [(shouldPress, outKey)]

/-- touch_mods: for every configured modifier whose membership in the combo's
    needed set differs from its membership in the currently pressed set, touch
    it with should_press == (mod in out_mods). -/
def touchMods (shouldPress : Bool) (outMods pressedMods : Finset ℤ)
    (mods : List ℤ) : List (Bool × ℤ) :=
  mods.flatMap (fun m =>
    if decide (m ∈ outMods) ≠ decide (m ∈ pressedMods) then
      touchKey (shouldPress == decide (m ∈ outMods)) m
    else [])

/-- press_combo: engage the combo modifiers, press the key, then run the same
    modifier adjustment with should_press inverted. -/
def pressCombo (outKey : ℤ) (outMods pressedMods : Finset ℤ)
    (mods : List ℤ) : List (Bool × ℤ) :=
  touchMods true outMods pressedMods mods ++ touchKey true outKey
    ++ touchMods false outMods pressedMods mods

/-- Replay a touch sequence onto a host pressed-state map. -/
def applyTouches (touches : List (Bool × ℤ)) (host : ℤ → Bool) : ℤ → Bool :=
  touches.foldl (fun h t => Function.update h t.2 t.1) host

/-- _release_pressed_mods: nothing when no modifier is held; otherwise pulse
    the masking key when stickies are latched, release every held modifier
    (Python iterates the set in unspecified order; the model emits them in
    sorted order), and clear the modifier bookkeeping. -/
def releasePressedMods (cfg : AppConfig) (st : KeyboardState) :
    KeyboardState × List (Bool × ℤ) :=
  if st.pressedMods = ∅ then (st, [])
  else
    ({ st with pressedMods := ∅, pressedCountByMod := fun _ => 0,
               pressedCountKeys := ∅, hasStickies := false },
      (if st.hasStickies = true then
          touchKey true cfg.keyMask ++ touchKey false cfg.keyMask
        else [])
        ++ (st.pressedMods.sort (· ≤ ·)).flatMap (touchKey false))

/-- The deferred callback scheduled by the sticky branch:
    lambda: Keyboard._last_mod == in_key and Keyboard._release_pressed_mods().
    A no-op when a different key was the last dual-role press. -/
def fireStickyCallback (cfg : AppConfig) (st : KeyboardState) (inKey : ℤ) :
    KeyboardState × List (Bool × ℤ) :=
  if st.lastMod = inKey then releasePressedMods cfg st else (st, [])

/-- Modifier-count part of the normal release: decrement the counter of the
    released output modifier and perform the full reset when the counters sum
    to zero. -/
def normalReleaseCountCheck (cfg : AppConfig) (st : KeyboardState) :
    KeyboardState × List (Bool × ℤ) :=
  if st.pressedCountKeys.sum st.pressedCountByMod = 0 then
    releasePressedMods cfg st
  else (st, [])

/-- Normal release dispatch on the popped record's output key: a configured
    modifier decrements its count (defaultdict access inserts the key), any
    other key is released directly. -/
def normalReleaseModPart (cfg : AppConfig) (st : KeyboardState)
    (outPressKey : ℤ) : KeyboardState × List (Bool × ℤ) :=
  if outPressKey ∈ cfg.mods then
    normalReleaseCountCheck cfg
      { st with
        pressedCountByMod := Function.update st.pressedCountByMod outPressKey
          (st.pressedCountByMod outPressKey - 1),
        pressedCountKeys := insert outPressKey st.pressedCountKeys }
  else (st, touchKey false outPressKey)

/-- Tap synthesis of the normal release: a continuous short release of a key
    with a tap alternate emits a full press+release of the alternate. -/
def tapTouches (cfg : AppConfig) (outTapKey : ℤ) (isContinuous : Bool)
    (heldDuration : ℚ) : List (Bool × ℤ) :=
  if outTapKey ≠ -1 ∧ isContinuous = true
      ∧ heldDuration < cfg.minStickyTriggerDuration then
    touchKey true outTapKey ++ touchKey false outTapKey
  else []

/-- Final statement of _handle_listener_release:
    "if is_continuous: Keyboard._last_press = (0., -1)". -/
def clearLastPressIfContinuous (st : KeyboardState) (isContinuous : Bool) :
    KeyboardState :=
  if isContinuous = true then { st with lastPress := (0, -1) } else st

/-- Body of _handle_listener_release once the record is popped (st already has
    the key removed; last_press is untouched by the pop). Returns the state,
    the timers scheduled as (delay, captured in_key) pairs, and the touches
    emitted synchronously. -/
def handleReleaseWithRecord (cfg : AppConfig) (st : KeyboardState) (inKey : ℤ)
    (timeReleased timePressed : ℚ) (outPressKey outTapKey : ℤ)
    (isSticky : Bool) : KeyboardState × List (ℚ × ℤ) × List (Bool × ℤ) :=
  if isSticky = true ∧ st.lastPress.2 = inKey
      ∧ (st.hasStickies = true
        ∨ (cfg.minStickyTriggerDuration ≤ timeReleased - timePressed
          ∧ timeReleased - timePressed < cfg.maxStickyTriggerDuration)) then
    (clearLastPressIfContinuous { st with hasStickies := true }
        (decide (st.lastPress.2 = inKey)),
      [(cfg.stickyDuration, inKey)], [])
  else
    (clearLastPressIfContinuous (normalReleaseModPart cfg st outPressKey).1
        (decide (st.lastPress.2 = inKey)),
      [],
      (normalReleaseModPart cfg st outPressKey).2
        ++ tapTouches cfg outTapKey (decide (st.lastPress.2 = inKey))
            (timeReleased - timePressed))

/-- _handle_listener_release: a release with no matching press record is
    ignored; otherwise the record is popped and processed. -/
def handleListenerRelease (cfg : AppConfig) (st : KeyboardState) (inKey : ℤ)
    (timeReleased : ℚ) : KeyboardState × List (ℚ × ℤ) × List (Bool × ℤ) :=
  match st.pressedKeys inKey with
  | none => (st, [], [])
  | some (timePressed, outPressKey, outTapKey, isSticky) =>
    handleReleaseWithRecord cfg
      { st with pressedKeys := Function.update st.pressedKeys inKey none }
      inKey timeReleased timePressed outPressKey outTapKey isSticky

/-- Poll loop of terminate_running_instance_if_exists in source/util.py:
    sleep wait_seconds, double it, and probe the process, while the sleep
    length stays at most 2 s. alive n tells whether the process still exists
    at the n-th probe; returns whether the process was seen gone, and the
    sleeps performed. The fuel only bounds the doubling loop, whose five
    iterations (0.125 to 2) it strictly dominates. -/
def pollSleepsAux (alive : ℕ → Bool) : ℕ → ℚ → ℕ → Bool × List ℚ
  | 0, _, _ => (false, [])
  | fuel + 1, w, n =>
    if w ≤ 2 then
      if alive n then
        ((pollSleepsAux alive fuel (2 * w) (n + 1)).1,
          w :: (pollSleepsAux alive fuel (2 * w) (n + 1)).2)
      else (true, [w])
    else (false, [])

/-- The sleeps performed by the takeover poll, starting at 0.125 s. -/
def pollSleeps (alive : ℕ → Bool) : List ℚ :=
  (pollSleepsAux alive 8 (1/8) 0).2

/-- Outcome of terminate_running_instance_if_exists once the old instance was
    signalled: success when a probe saw it gone, otherwise the exception
    reporting the offending process id. -/
def terminateOutcome (pid : ℤ) (alive : ℕ → Bool) : Except ℤ Unit :=
  if (pollSleepsAux alive 8 (1/8) 0).1 then Except.ok () else Except.error pid

-- ===================== DEFINITIONS CONTINUE ABOVE =====================

/-- Rewrites the quantizer at a displacement whose argument is a rational
    multiple of pi into a pure rational floor computation. -/
lemma movementOf_arg_rat (d : ℂ) (c : ℚ) (h : Complex.arg d = (c : ℝ) * π) :
    movementOfDisplacement d
      = movementFromIndex ⌊(2 * (c + 1/4 - 2 * ⌊(c + 1/4)/2⌋) : ℚ)⌋ := by
  unfold movementOfDisplacement pymod
  rw [h]
  have hπ : (π : ℝ) ≠ 0 := Real.pi_ne_zero
  have h1 : ((c : ℝ) * π + π/4) / (2*π) = (((c + 1/4)/2 : ℚ) : ℝ) := by
    push_cast; field_simp; ring
  rw [h1, Rat.floor_cast]
  have h4 : ((c:ℝ) * π + π/4 - 2*π*((⌊(c + 1/4)/2⌋ : ℤ) : ℝ)) / (π/2)
      = ((2 * (c + 1/4 - 2 * ⌊(c + 1/4)/2⌋) : ℚ) : ℝ) := by
    push_cast; field_simp; ring
  rw [h4, Rat.floor_cast]

/-- A strictly rightward displacement (positive real axis) quantizes to East. -/
lemma movementOf_pos_real (x : ℝ) (hx : 0 ≤ x) :
    movementOfDisplacement (x : ℂ) = .E := by
  have h : Complex.arg (x : ℂ) = ((0 : ℚ) : ℝ) * π := by
    rw [Complex.arg_ofReal_of_nonneg hx]; norm_num
  rw [movementOf_arg_rat _ 0 h]
  norm_num [movementFromIndex]

/-- Downward displacement (0, 5), i.e. 5i with y increasing downward: South. -/
lemma movementOf_down : movementOfDisplacement ((5:ℝ) * Complex.I) = .S := by
  have h : Complex.arg ((5:ℝ) * Complex.I) = ((1/2 : ℚ) : ℝ) * π := by
    rw [Complex.arg_real_mul _ (by norm_num : (0:ℝ) < 5), Complex.arg_I]; push_cast; ring
  rw [movementOf_arg_rat _ (1/2) h]
  norm_num [movementFromIndex]

/-- Upward displacement (0, -5), i.e. -5i: North. -/
lemma movementOf_up : movementOfDisplacement ((5:ℝ) * (-Complex.I)) = .N := by
  have h : Complex.arg ((5:ℝ) * (-Complex.I)) = ((-1/2 : ℚ) : ℝ) * π := by
    rw [Complex.arg_real_mul _ (by norm_num : (0:ℝ) < 5), Complex.arg_neg_I]; push_cast; ring
  rw [movementOf_arg_rat _ (-1/2) h]
  norm_num [movementFromIndex]

/-- Leftward displacement (-5, 0): West. -/
lemma movementOf_left : movementOfDisplacement ((5:ℝ) * (-1)) = .W := by
  have h : Complex.arg ((5:ℝ) * (-1)) = ((1 : ℚ) : ℝ) * π := by
    rw [Complex.arg_real_mul _ (by norm_num : (0:ℝ) < 5), Complex.arg_neg_one]; push_cast; ring
  rw [movementOf_arg_rat _ 1 h]
  norm_num [movementFromIndex]

/-- Exact 45-degree diagonal (5, 5): rotated angle is exactly 90 degrees, and
    the floor tie-break places it in the South sector it enters. -/
lemma movementOf_diag : movementOfDisplacement (5 + 5 * Complex.I) = .S := by
  have hs : Real.sqrt 2 * Real.sqrt 2 = 2 := Real.mul_self_sqrt (by norm_num)
  have h5 : (5 * Real.sqrt 2) * (Real.sqrt 2 / 2) = 5 := by nlinarith [hs]
  have key : ((5 * Real.sqrt 2 : ℝ) : ℂ)
      * (Complex.cos ((π/4 : ℝ) : ℂ) + Complex.sin ((π/4 : ℝ) : ℂ) * Complex.I)
      = 5 + 5 * Complex.I := by
    rw [← Complex.ofReal_cos, ← Complex.ofReal_sin, Real.cos_pi_div_four, Real.sin_pi_div_four]
    calc ((5 * Real.sqrt 2 : ℝ) : ℂ)
        * (((Real.sqrt 2 / 2 : ℝ) : ℂ) + ((Real.sqrt 2 / 2 : ℝ) : ℂ) * Complex.I)
        = ((5 * Real.sqrt 2 * (Real.sqrt 2 / 2) : ℝ) : ℂ)
          + ((5 * Real.sqrt 2 * (Real.sqrt 2 / 2) : ℝ) : ℂ) * Complex.I := by
          push_cast; ring
      _ = 5 + 5 * Complex.I := by rw [h5]; norm_num
  have h : Complex.arg (5 + 5 * Complex.I) = ((1/4 : ℚ) : ℝ) * π := by
    rw [← key, Complex.arg_real_mul _ (by positivity : (0:ℝ) < 5 * Real.sqrt 2),
      Complex.arg_cos_add_sin_mul_I ⟨by linarith [Real.pi_pos], by linarith [Real.pi_pos]⟩]
    push_cast; ring
  rw [movementOf_arg_rat _ (1/4) h]
  norm_num [movementFromIndex]

/-- The degree-based spec quantizer and the radian-based source quantizer agree
    on every displacement. -/
lemma specMovement_eq_movement (d : ℂ) :
    specMovementOfDisplacement d = movementOfDisplacement d := by
  unfold specMovementOfDisplacement movementOfDisplacement pymod
  have hπ : (π : ℝ) ≠ 0 := Real.pi_ne_zero
  have hfloor : ⌊(Complex.arg d * (180/π) + 45) / 360⌋ = ⌊(Complex.arg d + π/4) / (2*π)⌋ := by
    congr 1
    field_simp
    ring
  rw [hfloor]
  congr 1
  field_simp
  ring_nf

/-- C3: for every displacement sample fed at speed at least 3 length-units per
    second, the quantized direction equals the spec's sector (rotate the angle
    by +45 degrees, reduce modulo 360 degrees, take floor(angle/90) as index
    into (East, South, West, North), vertical axis increasing downward); in
    particular (0,-5) maps to North, (5,0) to East, (0,5) to South, (-5,0) to
    West, and the exact 45-degree diagonal (5,5) falls into South under the
    floor tie-break. -/
theorem C3_direction_quantization (d : ℂ) (t : ℝ) (ht : 0 < t)
    (hspeed : 3 ≤ Complex.abs d / t) :
    movementOfDisplacement d = specMovementOfDisplacement d
      ∧ movementOfDisplacement ((5:ℝ) * (-Complex.I)) = .N
      ∧ movementOfDisplacement ((5:ℝ) : ℂ) = .E
      ∧ movementOfDisplacement ((5:ℝ) * Complex.I) = .S
      ∧ movementOfDisplacement ((5:ℝ) * (-1)) = .W
      ∧ movementOfDisplacement (5 + 5 * Complex.I) = .S :=
  ⟨(specMovement_eq_movement d).symm, movementOf_up, movementOf_pos_real 5 (by norm_num),
    movementOf_down, movementOf_left, movementOf_diag⟩

/-- Witness for C3 at the concrete sample d = 4, t = 1 (speed 4). -/
theorem C3_direction_quantization_witness :
    movementOfDisplacement ((4:ℝ) : ℂ) = specMovementOfDisplacement ((4:ℝ) : ℂ) :=
  (C3_direction_quantization ((4:ℝ) : ℂ) 1 (by norm_num)
    (by rw [Complex.abs_ofReal]; norm_num)).1

/-- The recognizer core never changes the session source. -/
lemma updateGesture_source (g : GestureState) (d : ℂ) (t : ℝ) :
    (updateGestureFromNewDisplacement g d t).gestureSource = g.gestureSource := by
  unfold updateGestureFromNewDisplacement gestureEmit gestureAddDistance gesturePendingReset
  split_ifs <;> rfl

/-- One fast sample starting unpaused: the state stays unpaused and the
    recognized gesture either is unchanged or appends exactly the sample's
    direction, the latter only when that direction differs from the last
    token. -/
lemma updateGesture_notpaused_step (g : GestureState) (d : ℂ) (t : ℝ)
    (hp : g.isGesturePaused = false) (hsp : ¬ Complex.abs d / t < 3) :
    (updateGestureFromNewDisplacement g d t).isGesturePaused = false
      ∧ ((updateGestureFromNewDisplacement g d t).gestureRecognized = g.gestureRecognized
        ∨ ((updateGestureFromNewDisplacement g d t).gestureRecognized
              = g.gestureRecognized ++ [movementOfDisplacement d]
            ∧ g.gestureRecognized.getLast? ≠ some (movementOfDisplacement d))) := by
  unfold updateGestureFromNewDisplacement gestureEmit gestureAddDistance gesturePendingReset
  rw [if_neg hsp]
  split_ifs <;> simp_all

/-- Duplicate suppression: while unpaused, a sample whose direction equals the
    last recognized token never appends. -/
lemma updateGesture_suppress (g : GestureState) (d : ℂ) (t : ℝ)
    (hp : g.isGesturePaused = false)
    (hl : g.gestureRecognized.getLast? = some (movementOfDisplacement d)) :
    (updateGestureFromNewDisplacement g d t).gestureRecognized = g.gestureRecognized := by
  unfold updateGestureFromNewDisplacement gestureEmit gestureAddDistance gesturePendingReset
  split_ifs <;> simp_all

/-- Invariant of a same-direction fast run: the state stays unpaused, and the
    recognized gesture is the original one or the original one extended by a
    single token of the run's direction. -/
lemma feedRun_invariant (m : GestureMovement) (L : List (ℂ × ℝ)) :
    ∀ (g : GestureState) (R : List GestureMovement),
      g.isGesturePaused = false →
      (g.gestureRecognized = R ∨ g.gestureRecognized = R ++ [m]) →
      (∀ p ∈ L, movementOfDisplacement p.1 = m ∧ ¬ Complex.abs p.1 / p.2 < 3) →
      (feedRun g L).isGesturePaused = false ∧
        ((feedRun g L).gestureRecognized = R ∨ (feedRun g L).gestureRecognized = R ++ [m]) := by
  induction L with
  | nil => intro g R hp hr _; exact ⟨hp, hr⟩
  | cons p L ih =>
      intro g R hp hr hL
      have hd := hL p (List.mem_cons_self _ _)
      have step := updateGesture_notpaused_step g p.1 p.2 hp hd.2
      have hr' : (updateGestureFromNewDisplacement g p.1 p.2).gestureRecognized = R
          ∨ (updateGestureFromNewDisplacement g p.1 p.2).gestureRecognized = R ++ [m] := by
        rcases step.2 with h | ⟨happ, hlast⟩
        · rw [h]; exact hr
        · rcases hr with h0 | h0
          · right; rw [happ, h0, hd.1]
          · exact absurd (by rw [h0, hd.1]; exact List.getLast?_concat R) hlast
      exact ih (updateGestureFromNewDisplacement g p.1 p.2) R step.1 hr'
        (fun q hq => hL q (List.mem_cons_of_mem _ hq))

/-- C7: over an uninterrupted run of fast samples all quantizing to the same
    direction and starting unpaused, the recognized gesture grows by at most
    one token regardless of sample count, and a sample whose direction equals
    the last recognized token while not paused returns without appending. -/
theorem C7_duplicate_run_suppression (g : GestureState) (m : GestureMovement)
    (L : List (ℂ × ℝ)) (hp : g.isGesturePaused = false)
    (hL : ∀ p ∈ L, movementOfDisplacement p.1 = m ∧ ¬ Complex.abs p.1 / p.2 < 3) :
    ((feedRun g L).gestureRecognized = g.gestureRecognized
        ∨ (feedRun g L).gestureRecognized = g.gestureRecognized ++ [m])
      ∧ (feedRun g L).gestureRecognized.length ≤ g.gestureRecognized.length + 1
      ∧ (∀ d t, g.gestureRecognized.getLast? = some (movementOfDisplacement d) →
          (updateGestureFromNewDisplacement g d t).gestureRecognized
            = g.gestureRecognized) := by
  have main := feedRun_invariant m L g g.gestureRecognized hp (Or.inl rfl) hL
  refine ⟨main.2, ?_, fun d t hl => updateGesture_suppress g d t hp hl⟩
  rcases main.2 with h | h <;> simp [h]

/-- Witness for C7: two identical eastward samples starting from the initial
    session state append at most one token. -/
theorem C7_duplicate_run_suppression_witness :
    (feedRun ⟨none, [], none, 0, false⟩ [(((4:ℝ) : ℂ), 1), (((4:ℝ) : ℂ), 1)]).gestureRecognized
        = ([] : List GestureMovement)
      ∨ (feedRun ⟨none, [], none, 0, false⟩
          [(((4:ℝ) : ℂ), 1), (((4:ℝ) : ℂ), 1)]).gestureRecognized = [GestureMovement.E] := by
  have h := C7_duplicate_run_suppression ⟨none, [], none, 0, false⟩ .E
    [(((4:ℝ) : ℂ), 1), (((4:ℝ) : ℂ), 1)] rfl ?_
  · simpa using h.1
  · intro p hp
    have : p = (((4:ℝ) : ℂ), 1) := by
      rcases List.mem_cons.mp hp with h | h
      · exact h
      · simpa using h
    rw [this]
    refine ⟨movementOf_pos_real 4 (by norm_num), ?_⟩
    rw [Complex.abs_ofReal]
    norm_num

/-- The window-change check always leaves the recorded window equal to the
    active one and touches no other tracker field. -/
lemma detect_window_fields (tr : TrackerState) (active : WindowInfo) :
    (detectAndLogWindowChangeIfNeeded tr active).1.prevActiveWindowInfo = some active
      ∧ (detectAndLogWindowChangeIfNeeded tr active).1.pressedKeysAndButtons
          = tr.pressedKeysAndButtons
      ∧ (detectAndLogWindowChangeIfNeeded tr active).1.prevMouseWheelScrollTime
          = tr.prevMouseWheelScrollTime := by
  unfold detectAndLogWindowChangeIfNeeded
  split_ifs with h <;> simp_all

/-- The window-change check emits no wheel line. -/
lemma detect_wheelLineCount (tr : TrackerState) (active : WindowInfo) :
    wheelLineCount (detectAndLogWindowChangeIfNeeded tr active).2 = 0 := by
  unfold detectAndLogWindowChangeIfNeeded
  split_ifs <;> simp [wheelLineCount]

/-- C9 counterexample: when the active window differs from the recorded one, a
    key press mutates the tracker's recorded window info as well, so it does
    not mutate only the pressed-key set. -/
theorem C9_keypress_mutates_window_counterexample :
    (handleHookKeyPressing ∅ ⟨∅, 0, some ⟨none, "a"⟩⟩ ⟨none, "b"⟩ [] 1
        false).2.1.prevActiveWindowInfo = some ⟨none, "b"⟩
      ∧ (handleHookKeyPressing ∅ ⟨∅, 0, some ⟨none, "a"⟩⟩ ⟨none, "b"⟩ [] 1
          false).2.1.prevActiveWindowInfo
        ≠ (⟨∅, 0, some ⟨none, "a"⟩⟩ : TrackerState).prevActiveWindowInfo := by
  constructor <;>
    simp [handleHookKeyPressing, detectAndLogWindowChangeIfNeeded]

/-- C9 amended: both tracing key handlers never suppress; a press is a pure
    no-op when the key is modifier-paired or already recorded, and otherwise
    mutates only the pressed-key set and the recorded active-window info while
    emitting the key-press trace line; a release only discards the key. -/
theorem C9_tracing_key_handlers (modifierPairedKeys : Finset ℕ)
    (tr : TrackerState) (active : WindowInfo) (activeModifiers : List ℕ)
    (key : ℕ) (isNativeRepeat : Bool) :
    (handleHookKeyPressing modifierPairedKeys tr active activeModifiers key
        isNativeRepeat).1 = false
      ∧ (handleHookKeyReleasing tr key).1 = false
      ∧ (Sum.inl key ∈ tr.pressedKeysAndButtons ∨ key ∈ modifierPairedKeys →
          (handleHookKeyPressing modifierPairedKeys tr active activeModifiers
              key isNativeRepeat).2.1 = tr
            ∧ (handleHookKeyPressing modifierPairedKeys tr active
                activeModifiers key isNativeRepeat).2.2 = [])
      ∧ (Sum.inl key ∉ tr.pressedKeysAndButtons ∧ key ∉ modifierPairedKeys →
          (handleHookKeyPressing modifierPairedKeys tr active activeModifiers
              key isNativeRepeat).2.1.pressedKeysAndButtons
              = insert (Sum.inl key) tr.pressedKeysAndButtons
            ∧ (handleHookKeyPressing modifierPairedKeys tr active
                activeModifiers key isNativeRepeat).2.1.prevMouseWheelScrollTime
              = tr.prevMouseWheelScrollTime
            ∧ (handleHookKeyPressing modifierPairedKeys tr active
                activeModifiers key isNativeRepeat).2.1.prevActiveWindowInfo
              = some active
            ∧ (handleHookKeyPressing modifierPairedKeys tr active
                activeModifiers key isNativeRepeat).2.2
              = (detectAndLogWindowChangeIfNeeded tr active).2
                ++ [.keyPressTrace activeModifiers key])
      ∧ (handleHookKeyReleasing tr key).2
          = { tr with pressedKeysAndButtons :=
              tr.pressedKeysAndButtons.erase (Sum.inl key) } := by
  have hd := detect_window_fields tr active
  refine ⟨?_, rfl, ?_, ?_, rfl⟩
  · unfold handleHookKeyPressing
    split_ifs <;> rfl
  · intro h
    unfold handleHookKeyPressing
    rw [if_neg (by tauto)]
    exact ⟨rfl, rfl⟩
  · intro h
    unfold handleHookKeyPressing
    rw [if_pos h]
    exact ⟨by simp [hd.2.1], by simp [hd.2.2], by simp [hd.1], rfl⟩

/-- Witness for C9 at a fresh key on an empty tracker. -/
theorem C9_tracing_key_handlers_witness :
    (handleHookKeyPressing ∅ ⟨∅, 0, none⟩ ⟨none, "b"⟩ [] 1
        false).2.1.pressedKeysAndButtons
      = insert (Sum.inl 1) (∅ : Finset (ℕ ⊕ ButtonId)) :=
  ((C9_tracing_key_handlers ∅ ⟨∅, 0, none⟩ ⟨none, "b"⟩ [] 1 false).2.2.2.1
    (by simp)).1

/-- A non-momentum wheel event always leaves the throttle timestamp equal to
    its own time, logged or dropped. -/
lemma wheel_updates_timestamp (tr : TrackerState) (active : WindowInfo)
    (activeModifiers : List ℕ) (scrollDisplacement : ℚ × ℚ)
    (isContinuous : Bool) (t : ℚ) :
    (handleHookMouseWheelScrolling tr active activeModifiers scrollDisplacement
        isContinuous false t).2.1.prevMouseWheelScrollTime = t := by
  unfold handleHookMouseWheelScrolling
  have hd := detect_window_fields { tr with prevMouseWheelScrollTime := t } active
  split_ifs <;> simp_all

/-- A wheel event arriving less than 0.125 s after the previous one is dropped:
    only the timestamp moves, no line is emitted. -/
lemma wheel_drop (tr : TrackerState) (active : WindowInfo)
    (activeModifiers : List ℕ) (scrollDisplacement : ℚ × ℚ)
    (isContinuous : Bool) (t : ℚ)
    (h : t - tr.prevMouseWheelScrollTime < 0.125) :
    handleHookMouseWheelScrolling tr active activeModifiers scrollDisplacement
        isContinuous false t
      = (false, { tr with prevMouseWheelScrollTime := t }, []) := by
  unfold handleHookMouseWheelScrolling
  rw [if_pos rfl, if_pos h]

/-- A single wheel event emits at most one wheel line. -/
lemma wheel_single_count (tr : TrackerState) (active : WindowInfo)
    (activeModifiers : List ℕ) (scrollDisplacement : ℚ × ℚ)
    (isContinuous isDoneByMomentum : Bool) (t : ℚ) :
    wheelLineCount (handleHookMouseWheelScrolling tr active activeModifiers
        scrollDisplacement isContinuous isDoneByMomentum t).2.2 ≤ 1 := by
  unfold handleHookMouseWheelScrolling
  have hd := detect_wheelLineCount { tr with prevMouseWheelScrollTime := t } active
  split_ifs <;> simp_all [wheelLineCount]

/-- When consecutive gaps stay under 0.125 s, every event after the first is
    dropped silently. -/
lemma wheelStream_silent (active : WindowInfo) (activeModifiers : List ℕ)
    (scrollDisplacement : ℚ × ℚ) (isContinuous : Bool) (ts : List ℚ) :
    ∀ tr : TrackerState,
      List.Chain' (fun a b => b - a < 0.125) (tr.prevMouseWheelScrollTime :: ts) →
      (wheelStream active activeModifiers scrollDisplacement isContinuous tr
          ts).2 = [] := by
  induction ts with
  | nil => intro tr _; rfl
  | cons t ts ih =>
      intro tr h
      rw [List.chain'_cons] at h
      unfold wheelStream
      rw [wheel_drop tr active activeModifiers scrollDisplacement isContinuous t h.1]
      simpa using ih { tr with prevMouseWheelScrollTime := t } (by simpa using h.2)

/-- C10: the wheel-scroll throttle timestamp is updated on every non-momentum
    event, dropped or not; and a stream of non-momentum events whose
    consecutive gaps are all under 0.125 s produces exactly the lines of its
    first event, hence at most one wheel trace line overall. -/
theorem C10_wheel_throttle (tr : TrackerState) (active : WindowInfo)
    (activeModifiers : List ℕ) (scrollDisplacement : ℚ × ℚ)
    (isContinuous : Bool) (t0 : ℚ) (rest : List ℚ)
    (hchain : List.Chain' (fun a b => b - a < 0.125) (t0 :: rest)) :
    (∀ (tr' : TrackerState) (t : ℚ),
        (handleHookMouseWheelScrolling tr' active activeModifiers
          scrollDisplacement isContinuous false t).2.1.prevMouseWheelScrollTime = t)
      ∧ (wheelStream active activeModifiers scrollDisplacement isContinuous tr
            (t0 :: rest)).2
          = (handleHookMouseWheelScrolling tr active activeModifiers
              scrollDisplacement isContinuous false t0).2.2
      ∧ wheelLineCount (wheelStream active activeModifiers scrollDisplacement
          isContinuous tr (t0 :: rest)).2 ≤ 1 := by
  have hupd := fun (tr' : TrackerState) (t : ℚ) =>
    wheel_updates_timestamp tr' active activeModifiers scrollDisplacement
      isContinuous t
  have hsilent := wheelStream_silent active activeModifiers scrollDisplacement
    isContinuous rest
    ((handleHookMouseWheelScrolling tr active activeModifiers
      scrollDisplacement isContinuous false t0).2.1)
    (by rw [hupd]; exact hchain)
  have hlines : (wheelStream active activeModifiers scrollDisplacement
      isContinuous tr (t0 :: rest)).2
      = (handleHookMouseWheelScrolling tr active activeModifiers
          scrollDisplacement isContinuous false t0).2.2 := by
    unfold wheelStream
    rw [hsilent]
    simp
  refine ⟨hupd, hlines, ?_⟩
  rw [hlines]
  exact wheel_single_count tr active activeModifiers scrollDisplacement
    isContinuous false t0

/-- Witness for C10: three events at gaps of 1/16 s starting from an idle
    tracker produce only the first event's lines. -/
theorem C10_wheel_throttle_witness :
    (wheelStream ⟨none, "a"⟩ [] (0, 1) true ⟨∅, 0, none⟩
        [1, 17/16, 18/16]).2
      = (handleHookMouseWheelScrolling ⟨∅, 0, none⟩ ⟨none, "a"⟩ [] (0, 1) true
          false 1).2.2 :=
  (C10_wheel_throttle ⟨∅, 0, none⟩ ⟨none, "a"⟩ [] (0, 1) true 1 [17/16, 18/16]
    (by norm_num)).2.1

/-- C2 counterexample: ending a pointer session does not reset
    pending_movement_distance to 0 and does not clear is_gesture_paused, so the
    claimed unconditional reset to {pendingDistance: 0, paused: false} fails. -/
theorem C2_session_end_counterexample :
    (handleHookMouseButtonReleasing true ⟨∅, true, 0, 0⟩ ⟨∅, 0, none⟩
        ⟨some .mouse, [.E], some .E, 1, true⟩ .rightButton
        1).gesture.pendingMovementDistance = 1
      ∧ (handleHookMouseButtonReleasing true ⟨∅, true, 0, 0⟩ ⟨∅, 0, none⟩
          ⟨some .mouse, [.E], some .E, 1, true⟩ .rightButton
          1).gesture.isGesturePaused = true := by
  constructor <;>
    simp [handleHookMouseButtonReleasing, gestureMouseEndReset]

/-- C2 amended: ending a session triggers the gesture action exactly when the
    recognized gesture is non-empty, suppresses the physical event, and resets
    source to None, recognized to empty and pendingMovement to None; the
    pending distance is left unchanged in both paths, and paused is cleared
    only in the trackpad path (the pointer path leaves it unchanged). -/
theorem C2_session_end (ms : MouseState) (tr : TrackerState) (g : GestureState)
    (tp : TrackpadState) (newPositions : FingerMap) (currTime : ℝ)
    (active : WindowInfo) :
    (ms.isMakingGesture = true →
      (handleHookMouseButtonReleasing true ms tr g .rightButton 1).suppress = true
        ∧ ((handleHookMouseButtonReleasing true ms tr g .rightButton 1).performed
            = if 0 < g.gestureRecognized.length then some g.gestureRecognized
              else none)
        ∧ (handleHookMouseButtonReleasing true ms tr g .rightButton 1).gesture
            = { g with gestureSource := none, gestureRecognized := [],
                       pendingMovement := none }
        ∧ (handleHookMouseButtonReleasing true ms tr g .rightButton
            1).mouse.isMakingGesture = false
        ∧ ((handleHookMouseButtonReleasing true ms tr g .rightButton
              1).emulatedClick = true ↔ g.gestureRecognized.length = 0))
      ∧ (tp.isMakingGesture = true →
        (∀ i ∈ tp.fingersMakingGesture, i ∉ newPositions.ids) →
        ((handleHookTrackpadFingerPositionsUpdating tr tp g newPositions
              currTime active).performed
            = if 0 < g.gestureRecognized.length then some g.gestureRecognized
              else none)
          ∧ (handleHookTrackpadFingerPositionsUpdating tr tp g newPositions
              currTime active).gesture
            = { g with gestureSource := none, gestureRecognized := [],
                       pendingMovement := none, isGesturePaused := false }
          ∧ (handleHookTrackpadFingerPositionsUpdating tr tp g newPositions
              currTime active).trackpad.isMakingGesture = false) := by
  constructor
  · intro hm
    unfold handleHookMouseButtonReleasing
    rw [if_pos ⟨rfl, rfl, rfl⟩, if_pos hm]
    by_cases hl : 0 < g.gestureRecognized.length
    · rw [if_pos hl]
      exact ⟨rfl, by rw [if_pos hl], rfl, rfl,
        Iff.intro (fun h => by simp at h) (fun h => absurd h (by omega))⟩
    · rw [if_neg hl]
      exact ⟨rfl, by rw [if_neg hl], rfl, rfl,
        Iff.intro (fun _ => by omega) (fun _ => rfl)⟩
  · intro ht hend
    unfold handleHookTrackpadFingerPositionsUpdating
    rw [if_pos ht, if_pos hend]
    by_cases hl : 0 < g.gestureRecognized.length
    · rw [if_pos hl]
      exact ⟨by rw [if_pos hl], rfl, rfl⟩
    · rw [if_neg hl]
      exact ⟨by rw [if_neg hl], rfl, rfl⟩

/-- Witness for C2: a pointer session holding one recognized token performs the
    gesture on release. -/
theorem C2_session_end_witness :
    (handleHookMouseButtonReleasing true ⟨∅, true, 0, 0⟩ ⟨∅, 0, none⟩
        ⟨some .mouse, [.E], none, 0, false⟩ .rightButton 1).performed
      = some [.E] := by
  have h := (C2_session_end ⟨∅, true, 0, 0⟩ ⟨∅, 0, none⟩
    ⟨some .mouse, [.E], none, 0, false⟩
    ⟨false, ∅, ⟨∅, fun _ => 0⟩, 0, ⟨∅, fun _ => 0⟩⟩ ⟨∅, fun _ => 0⟩ 0
    ⟨none, "a"⟩).1 rfl
  rw [h.2.1]
  simp

/-- A throttled trackpad update (interval below 1/24 s) changes nothing. -/
lemma updateGestureFromTrackpad_throttled (g : GestureState) (tp : TrackpadState)
    (currTime : ℝ) (h : currTime - tp.prevRecordedTime < 1/24) :
    updateGestureFromTrackpad g tp currTime = (g, tp) := by
  unfold updateGestureFromTrackpad
  rw [if_pos h]

/-- Initiation rule of _update_gesture_from_trackpad: from an idle trackpad, a
    session begins exactly when the update is not throttled and at least four
    qualifying fingers exist, and the tracking set becomes that subset. -/
lemma updateGestureFromTrackpad_start (g : GestureState) (tp : TrackpadState)
    (currTime : ℝ) (hidle : tp.isMakingGesture = false) :
    ((updateGestureFromTrackpad g tp currTime).2.isMakingGesture = true
        ↔ ¬ currTime - tp.prevRecordedTime < 1/24
          ∧ 4 ≤ (qualifyingFingers tp.prevRecordedFingerPositions
              tp.currRecordedFingerPositions
              (currTime - tp.prevRecordedTime)).card)
      ∧ ((updateGestureFromTrackpad g tp currTime).2.isMakingGesture = true →
          (updateGestureFromTrackpad g tp currTime).2.fingersMakingGesture
            = qualifyingFingers tp.prevRecordedFingerPositions
                tp.currRecordedFingerPositions (currTime - tp.prevRecordedTime)) := by
  by_cases h1 : currTime - tp.prevRecordedTime < 1/24
  · rw [updateGestureFromTrackpad_throttled g tp currTime h1]
    simp [hidle, h1]
    exact fun hc => absurd h1 (not_lt.mpr (by linarith))
  · by_cases h4 : 4 ≤ (qualifyingFingers tp.prevRecordedFingerPositions
        tp.currRecordedFingerPositions (currTime - tp.prevRecordedTime)).card
    · unfold updateGestureFromTrackpad
      rw [if_neg h1, if_neg (by omega)]
      unfold trackpadMaybeStart trackpadShiftPrev
      rw [if_pos (by simpa using hidle)]
      simp [h1, h4]
      linarith [not_lt.mp h1]
    · unfold updateGestureFromTrackpad
      rw [if_neg h1, if_pos ⟨hidle, by omega⟩]
      unfold trackpadShiftPrev
      simp [hidle, h4]

/-- While a session is in progress, _update_gesture_from_trackpad never changes
    the tracking set nor ends the session. -/
lemma updateGestureFromTrackpad_continue (g : GestureState) (tp : TrackpadState)
    (currTime : ℝ) (hrun : tp.isMakingGesture = true) :
    (updateGestureFromTrackpad g tp currTime).2.isMakingGesture = true
      ∧ (updateGestureFromTrackpad g tp currTime).2.fingersMakingGesture
          = tp.fingersMakingGesture := by
  unfold updateGestureFromTrackpad
  split_ifs with h1 h2
  · exact ⟨hrun, rfl⟩
  · rw [hrun] at h2; simp at h2
  · unfold trackpadMaybeStart trackpadShiftPrev
    simp [hrun]

/-- The post phase of the trackpad handler never interrupts a session in
    progress. -/
lemma trackpadPostPhase_continue (tr : TrackerState) (tp : TrackpadState)
    (g : GestureState) (newPositions : FingerMap) (currTime : ℝ)
    (performed : Option (List GestureMovement)) (lines : List TraceLine)
    (hrun : tp.isMakingGesture = true) :
    (trackpadPostPhase tr tp g newPositions currTime performed
        lines).trackpad.isMakingGesture = true
      ∧ (trackpadPostPhase tr tp g newPositions currTime performed
          lines).trackpad.fingersMakingGesture = tp.fingersMakingGesture := by
  unfold trackpadPostPhase
  by_cases h1 : g.gestureSource ≠ none
  · rw [if_pos h1]
    exact ⟨hrun, rfl⟩
  · rw [if_neg h1]
    by_cases h2 : 4 ≤ newPositions.ids.card
    · rw [if_pos h2]
      exact updateGestureFromTrackpad_continue g tp currTime hrun
    · rw [if_neg h2]
      exact ⟨hrun, rfl⟩

/-- C6 counterexample: an idle-state update arriving 1/48 s after the previous
    sample with four fingers all moving at 48 inch/s (well above the 3 inch/s
    threshold) does not start a session, because the 1/24 s throttle drops it;
    so "starts if and only if at least 4 qualifying fingers" fails as stated. -/
theorem C6_trackpad_start_counterexample :
    4 ≤ (qualifyingFingers ⟨{0, 1, 2, 3}, fun _ => 0⟩
          ⟨{0, 1, 2, 3}, fun i => ((i + 1 : ℕ) : ℂ)⟩ ((1/48 : ℝ) - 0)).card
      ∧ (handleHookTrackpadFingerPositionsUpdating ⟨∅, 0, none⟩
          ⟨false, ∅, ⟨{0, 1, 2, 3}, fun _ => 0⟩, 0, ⟨∅, fun _ => 0⟩⟩
          ⟨none, [], none, 0, false⟩
          ⟨{0, 1, 2, 3}, fun i => ((i + 1 : ℕ) : ℂ)⟩ (1/48) ⟨none, "a"⟩
        ).trackpad.isMakingGesture = false := by
  have hqual : qualifyingFingers ⟨{0, 1, 2, 3}, fun _ => 0⟩
      ⟨{0, 1, 2, 3}, fun i => ((i + 1 : ℕ) : ℂ)⟩ ((1/48 : ℝ) - 0)
      = ({0, 1, 2, 3} : Finset ℕ) := by
    unfold qualifyingFingers
    apply Finset.filter_true_of_mem
    intro i hi
    refine ⟨hi, ?_⟩
    fin_cases hi <;>
      · rw [sub_zero, Complex.abs_natCast]
        norm_num
  constructor
  · rw [hqual]; decide
  · unfold handleHookTrackpadFingerPositionsUpdating
    rw [if_neg (by simp)]
    unfold trackpadPostPhase
    rw [if_neg (by simp), if_pos (by decide)]
    rw [updateGestureFromTrackpad_throttled _ _ _ (by norm_num [trackpadStoreCurr])]
    rfl

/-- C6 amended: while no session is active, a finger-position update starts a
    trackpad session iff it is not dropped by the 1/24 s throttle and the set
    of fingers present in both maps moving at 3 inch/s or faster has at least
    four members; that set becomes the tracking set and the session source
    becomes trackpad. A session in progress with any tracked finger still
    present keeps its tracking set unchanged (new fingers never join). -/
theorem C6_trackpad_session_start (tr : TrackerState) (tp : TrackpadState)
    (g : GestureState) (newPositions : FingerMap) (currTime : ℝ)
    (active : WindowInfo) :
    (tp.isMakingGesture = false → g.gestureSource = none →
      ((handleHookTrackpadFingerPositionsUpdating tr tp g newPositions currTime
            active).trackpad.isMakingGesture = true
          ↔ ¬ currTime - tp.prevRecordedTime < 1/24
            ∧ 4 ≤ (qualifyingFingers tp.prevRecordedFingerPositions newPositions
                (currTime - tp.prevRecordedTime)).card)
        ∧ ((handleHookTrackpadFingerPositionsUpdating tr tp g newPositions
              currTime active).trackpad.isMakingGesture = true →
            (handleHookTrackpadFingerPositionsUpdating tr tp g newPositions
                currTime active).trackpad.fingersMakingGesture
              = qualifyingFingers tp.prevRecordedFingerPositions newPositions
                  (currTime - tp.prevRecordedTime)
            ∧ (handleHookTrackpadFingerPositionsUpdating tr tp g newPositions
                currTime active).gesture.gestureSource = some .trackpad))
      ∧ (tp.isMakingGesture = true →
        (∃ i ∈ tp.fingersMakingGesture, i ∈ newPositions.ids) →
        (handleHookTrackpadFingerPositionsUpdating tr tp g newPositions currTime
            active).trackpad.isMakingGesture = true
          ∧ (handleHookTrackpadFingerPositionsUpdating tr tp g newPositions
              currTime active).trackpad.fingersMakingGesture
            = tp.fingersMakingGesture) := by
  constructor
  · intro hidle hsrc
    unfold handleHookTrackpadFingerPositionsUpdating
    rw [if_neg (by simp [hidle])]
    unfold trackpadPostPhase
    rw [if_neg (by simp [hsrc])]
    have hidleC : (trackpadStoreCurr tp newPositions).isMakingGesture = false := hidle
    have hstart := updateGestureFromTrackpad_start g
      (trackpadStoreCurr tp newPositions) currTime hidleC
    simp only [trackpadStoreCurr] at hstart
    by_cases h4 : 4 ≤ newPositions.ids.card
    · rw [if_pos h4]
      refine ⟨hstart.1, fun hs => ?_⟩
      have hs2 : (updateGestureFromTrackpad g (trackpadStoreCurr tp newPositions)
          currTime).2.isMakingGesture = true := hs
      exact ⟨hstart.2 hs2, by rw [if_pos hs2]⟩
    · rw [if_neg h4]
      have hcard : (qualifyingFingers tp.prevRecordedFingerPositions newPositions
          (currTime - tp.prevRecordedTime)).card ≤ newPositions.ids.card :=
        Finset.card_filter_le _ _
      constructor
      · constructor
        · intro h; rw [hidleC] at h; exact absurd h Bool.false_ne_true
        · intro h; exact absurd (le_trans h.2 hcard) h4
      · intro h; rw [hidleC] at h; exact absurd h Bool.false_ne_true
  · intro hrun hex
    unfold handleHookTrackpadFingerPositionsUpdating
    rw [if_pos hrun, if_neg (by push_neg; exact hex)]
    have hrunC : (trackpadStoreCurr tp newPositions).isMakingGesture = true := hrun
    have hcont := updateGestureFromTrackpad_continue g
      (trackpadStoreCurr tp newPositions) currTime hrunC
    have hpost := trackpadPostPhase_continue tr
      (updateGestureFromTrackpad g (trackpadStoreCurr tp newPositions) currTime).2
      (updateGestureFromTrackpad g (trackpadStoreCurr tp newPositions) currTime).1
      newPositions currTime none [] hcont.1
    exact ⟨hpost.1, hpost.2.trans hcont.2⟩

/-- Witness for C6: four fingers moving at 3 to 6 inch/s over a full second
    start a session whose tracking set is exactly those fingers. -/
theorem C6_trackpad_session_start_witness :
    (handleHookTrackpadFingerPositionsUpdating ⟨∅, 0, none⟩
        ⟨false, ∅, ⟨{0, 1, 2, 3}, fun _ => 0⟩, 0, ⟨∅, fun _ => 0⟩⟩
        ⟨none, [], none, 0, false⟩
        ⟨{0, 1, 2, 3}, fun i => ((i + 3 : ℕ) : ℂ)⟩ 1 ⟨none, "a"⟩
      ).trackpad.isMakingGesture = true := by
  have hqual : qualifyingFingers ⟨{0, 1, 2, 3}, fun _ => 0⟩
      ⟨{0, 1, 2, 3}, fun i => ((i + 3 : ℕ) : ℂ)⟩ ((1 : ℝ) - 0)
      = ({0, 1, 2, 3} : Finset ℕ) := by
    unfold qualifyingFingers
    apply Finset.filter_true_of_mem
    intro i hi
    refine ⟨hi, ?_⟩
    fin_cases hi <;>
      · rw [sub_zero, Complex.abs_natCast]
        norm_num
  have h := ((C6_trackpad_session_start ⟨∅, 0, none⟩
    ⟨false, ∅, ⟨{0, 1, 2, 3}, fun _ => 0⟩, 0, ⟨∅, fun _ => 0⟩⟩
    ⟨none, [], none, 0, false⟩
    ⟨{0, 1, 2, 3}, fun i => ((i + 3 : ℕ) : ℂ)⟩ 1 ⟨none, "a"⟩).1 rfl rfl).1
  rw [h, hqual]
  norm_num

/-- The trackpad feed phase never changes the session source. -/
lemma trackpadFeedPhase_source (g : GestureState) (tp : TrackpadState)
    (prevP currP : FingerMap) (interval : ℝ) :
    (trackpadFeedPhase g tp prevP currP interval).gestureSource
      = g.gestureSource := by
  unfold trackpadFeedPhase
  split_ifs
  · rfl
  · exact updateGesture_source _ _ _

/-- _update_gesture_from_trackpad never changes the session source. -/
lemma updateGestureFromTrackpad_gsource (g : GestureState) (tp : TrackpadState)
    (currTime : ℝ) :
    (updateGestureFromTrackpad g tp currTime).1.gestureSource
      = g.gestureSource := by
  unfold updateGestureFromTrackpad
  split_ifs
  · rfl
  · rfl
  · exact trackpadFeedPhase_source _ _ _ _ _

/-- The mouse feed preserves the session source and the gesture-in-progress
    flag. -/
lemma updateGestureFromMouse_fields (g : GestureState) (ms : MouseState)
    (newPos : ℂ) (currTime : ℝ) :
    (updateGestureFromMouse g ms newPos currTime).1.gestureSource
        = g.gestureSource
      ∧ (updateGestureFromMouse g ms newPos currTime).2.isMakingGesture
        = ms.isMakingGesture := by
  unfold updateGestureFromMouse
  split_ifs
  · exact ⟨rfl, rfl⟩
  · exact ⟨updateGesture_source _ _ _, rfl⟩

/-- The cursor-move handler preserves the session source and the pointer
    gesture flag. -/
lemma cursorMoving_fields (ms : MouseState) (g : GestureState) (newPos : ℂ)
    (currTime : ℝ) :
    (handleHookMouseCursorMoving ms g newPos currTime).1.isMakingGesture
        = ms.isMakingGesture
      ∧ (handleHookMouseCursorMoving ms g newPos currTime).2.gestureSource
        = g.gestureSource := by
  unfold handleHookMouseCursorMoving
  split_ifs
  · exact ⟨(updateGestureFromMouse_fields g ms newPos currTime).2,
      (updateGestureFromMouse_fields g ms newPos currTime).1⟩
  · exact ⟨rfl, rfl⟩

/-- Through the trackpad post phase, the trackpad iff of the invariant is
    preserved, and the source either is untouched or becomes trackpad from
    none. -/
lemma trackpadPostPhase_source_iff (tr : TrackerState) (tp : TrackpadState)
    (g : GestureState) (newPositions : FingerMap) (currTime : ℝ)
    (performed : Option (List GestureMovement)) (lines : List TraceLine)
    (h : g.gestureSource = some .trackpad ↔ tp.isMakingGesture = true) :
    ((trackpadPostPhase tr tp g newPositions currTime performed
          lines).gesture.gestureSource = some .trackpad
        ↔ (trackpadPostPhase tr tp g newPositions currTime performed
            lines).trackpad.isMakingGesture = true)
      ∧ ((trackpadPostPhase tr tp g newPositions currTime performed
            lines).gesture.gestureSource = g.gestureSource
        ∨ ((trackpadPostPhase tr tp g newPositions currTime performed
              lines).gesture.gestureSource = some .trackpad
            ∧ g.gestureSource = none)) := by
  unfold trackpadPostPhase
  by_cases h1 : g.gestureSource ≠ none
  · rw [if_pos h1]
    exact ⟨h, Or.inl rfl⟩
  · rw [if_neg h1]
    push_neg at h1
    by_cases h2 : 4 ≤ newPositions.ids.card
    · rw [if_pos h2]
      by_cases h3 : (updateGestureFromTrackpad g tp currTime).2.isMakingGesture
          = true
      · rw [if_pos h3]
        exact ⟨by simp [h3], Or.inr ⟨rfl, h1⟩⟩
      · rw [if_neg h3]
        have hsrc := updateGestureFromTrackpad_gsource g tp currTime
        constructor
        · rw [hsrc, h1]
          exact ⟨fun hh => absurd hh (by simp), fun hh => absurd hh h3⟩
        · exact Or.inl hsrc
    · rw [if_neg h2]
      exact ⟨h, Or.inl rfl⟩

/-- When its gesture guard fails, the button-press handler leaves the mouse and
    gesture states untouched. -/
lemma buttonPressing_no_gesture (allowRB : Bool) (ms : MouseState)
    (tr : TrackerState) (g : GestureState) (button : ButtonId) (clickLevel : ℤ)
    (cursorPos : ℂ) (now : ℝ) (active : WindowInfo) (activeModifiers : List ℕ)
    (hc : ¬(button = .rightButton ∧ clickLevel = 1 ∧ allowRB = true
      ∧ g.gestureSource = none)) :
    (handleHookMouseButtonPressing allowRB ms tr g button clickLevel cursorPos
        now active activeModifiers).2.1 = ms
      ∧ (handleHookMouseButtonPressing allowRB ms tr g button clickLevel
          cursorPos now active activeModifiers).2.2.2.1 = g := by
  unfold handleHookMouseButtonPressing
  rw [if_neg hc]
  split_ifs <;> exact ⟨rfl, rfl⟩

/-- Every reachable system state satisfies the session-source exclusivity
    invariant. -/
lemma system_sourceConsistent (allowRB : Bool) (modifierPairedKeys : Finset ℕ) :
    ∀ s, SystemReachable allowRB modifierPairedKeys s → sourceConsistent s := by
  intro s h
  induction h with
  | base p0 tm tt q0 =>
      constructor <;> simp [initialSystemState]
  | step s e hr ih =>
      cases e with
      | keyPressE key rep act mods => exact ih
      | keyReleaseE key => exact ih
      | wheelScrollE d c m now act mods => exact ih
      | cursorMoveE newPos now =>
          have h1 := (cursorMoving_fields s.mouse s.gesture newPos now).1
          have h2 := (cursorMoving_fields s.mouse s.gesture newPos now).2
          simp only [systemStep, sourceConsistent] at ih ⊢
          rw [h1, h2]
          exact ih
      | buttonPressE button clickLevel cursorPos now act mods =>
          simp only [systemStep, sourceConsistent] at ih ⊢
          by_cases hc : button = .rightButton ∧ clickLevel = 1 ∧ allowRB = true
              ∧ s.gesture.gestureSource = none
          · have htp : s.trackpad.isMakingGesture = false := by
              rcases hb : s.trackpad.isMakingGesture with _ | _
              · rfl
              · rw [ih.2.mpr hb] at hc
                exact absurd hc.2.2.2 (by simp)
            unfold handleHookMouseButtonPressing
            rw [if_pos hc]
            constructor
            · simp
            · simp [htp]
          · have hmg := buttonPressing_no_gesture allowRB s.mouse s.tracker
              s.gesture button clickLevel cursorPos now act mods hc
            rw [hmg.1, hmg.2]
            exact ih
      | buttonReleaseE button clickLevel =>
          simp only [systemStep, sourceConsistent] at ih ⊢
          by_cases hc : allowRB = true ∧ button = .rightButton ∧ clickLevel = 1
          · by_cases hm : s.mouse.isMakingGesture = true
            · have hms : s.gesture.gestureSource = some .mouse := ih.1.mpr hm
              have htp : s.trackpad.isMakingGesture = false := by
                rcases hb : s.trackpad.isMakingGesture with _ | _
                · rfl
                · rw [ih.2.mpr hb] at hms
                  simp at hms
              have hH : (handleHookMouseButtonReleasing allowRB s.mouse
                    s.tracker s.gesture button clickLevel).mouse.isMakingGesture
                    = false
                  ∧ (handleHookMouseButtonReleasing allowRB s.mouse s.tracker
                      s.gesture button clickLevel).gesture.gestureSource
                    = none := by
                unfold handleHookMouseButtonReleasing
                rw [if_pos hc, if_pos hm]
                split_ifs <;> exact ⟨rfl, rfl⟩
              rw [hH.1, hH.2]
              constructor
              · simp
              · simp [htp]
            · have hH : (handleHookMouseButtonReleasing allowRB s.mouse
                    s.tracker s.gesture button clickLevel).mouse = s.mouse
                  ∧ (handleHookMouseButtonReleasing allowRB s.mouse s.tracker
                      s.gesture button clickLevel).gesture = s.gesture := by
                unfold handleHookMouseButtonReleasing
                rw [if_pos hc, if_neg hm]
                exact ⟨rfl, rfl⟩
              rw [hH.1, hH.2]
              exact ih
          · have hH : (handleHookMouseButtonReleasing allowRB s.mouse s.tracker
                  s.gesture button clickLevel).mouse = s.mouse
                ∧ (handleHookMouseButtonReleasing allowRB s.mouse s.tracker
                    s.gesture button clickLevel).gesture = s.gesture := by
              unfold handleHookMouseButtonReleasing
              rw [if_neg hc]
              exact ⟨rfl, rfl⟩
            rw [hH.1, hH.2]
            exact ih
      | trackpadUpdateE newPositions now act =>
          simp only [systemStep, sourceConsistent] at ih ⊢
          by_cases hA : s.trackpad.isMakingGesture = true
          · have hga : s.gesture.gestureSource = some .trackpad := ih.2.mpr hA
            have hmsf : s.mouse.isMakingGesture = false := by
              rcases hb : s.mouse.isMakingGesture with _ | _
              · rfl
              · rw [ih.1.mpr hb] at hga
                simp at hga
            by_cases hend : ∀ i ∈ s.trackpad.fingersMakingGesture,
                i ∉ newPositions.ids
            · have hH : (handleHookTrackpadFingerPositionsUpdating s.tracker
                    s.trackpad s.gesture newPositions now
                    act).gesture.gestureSource = none
                  ∧ (handleHookTrackpadFingerPositionsUpdating s.tracker
                      s.trackpad s.gesture newPositions now
                      act).trackpad.isMakingGesture = false := by
                unfold handleHookTrackpadFingerPositionsUpdating
                rw [if_pos hA, if_pos hend]
                split_ifs <;> exact ⟨rfl, rfl⟩
              rw [hH.1, hH.2]
              constructor
              · simp [hmsf]
              · simp
            · have hupd := updateGestureFromTrackpad_continue s.gesture
                (trackpadStoreCurr s.trackpad newPositions) now hA
              have hiff : (updateGestureFromTrackpad s.gesture
                    (trackpadStoreCurr s.trackpad newPositions)
                    now).1.gestureSource = some .trackpad
                  ↔ (updateGestureFromTrackpad s.gesture
                      (trackpadStoreCurr s.trackpad newPositions)
                      now).2.isMakingGesture = true := by
                rw [updateGestureFromTrackpad_gsource, hga, hupd.1]
                simp
              have hpost := trackpadPostPhase_source_iff s.tracker
                (updateGestureFromTrackpad s.gesture
                  (trackpadStoreCurr s.trackpad newPositions) now).2
                (updateGestureFromTrackpad s.gesture
                  (trackpadStoreCurr s.trackpad newPositions) now).1
                newPositions now none [] hiff
              have hHdef : handleHookTrackpadFingerPositionsUpdating s.tracker
                  s.trackpad s.gesture newPositions now act
                  = trackpadPostPhase s.tracker
                    (updateGestureFromTrackpad s.gesture
                      (trackpadStoreCurr s.trackpad newPositions) now).2
                    (updateGestureFromTrackpad s.gesture
                      (trackpadStoreCurr s.trackpad newPositions) now).1
                    newPositions now none [] := by
                unfold handleHookTrackpadFingerPositionsUpdating
                rw [if_pos hA, if_neg hend]
              rw [hHdef]
              refine ⟨?_, hpost.1⟩
              rcases hpost.2 with hsrc | hsrc
              · rw [hsrc, updateGestureFromTrackpad_gsource, hga]
                simp [hmsf]
              · rw [hsrc.1]
                simp [hmsf]
          · have hiff : s.gesture.gestureSource = some .trackpad
                ↔ (trackpadStoreCurr s.trackpad
                    newPositions).isMakingGesture = true := ih.2
            have hpost := trackpadPostPhase_source_iff s.tracker
              (trackpadStoreCurr s.trackpad newPositions) s.gesture
              newPositions now none [] hiff
            have hHdef : handleHookTrackpadFingerPositionsUpdating s.tracker
                s.trackpad s.gesture newPositions now act
                = trackpadPostPhase s.tracker
                  (trackpadStoreCurr s.trackpad newPositions) s.gesture
                  newPositions now none [] := by
              unfold handleHookTrackpadFingerPositionsUpdating
              rw [if_neg hA]
            rw [hHdef]
            refine ⟨?_, hpost.1⟩
            rcases hpost.2 with hsrc | hsrc
            · rw [hsrc]
              exact ih.1
            · rw [hsrc.1]
              have hmsf : s.mouse.isMakingGesture = false := by
                rcases hb : s.mouse.isMakingGesture with _ | _
                · rfl
                · rw [ih.1.mpr hb] at hsrc
                  simp at hsrc
              simp [hmsf]

/-- C5: in every reachable state at most one gesture source is active; a
    pointer session begins only when the session source is None; a trackpad
    session begins only when the session source is None; and an attempt to
    begin a second concurrent session is a no-op that leaves the first
    session's source (and the idle adapter) unchanged. -/
theorem C5_single_gesture_source (allowRB : Bool)
    (modifierPairedKeys : Finset ℕ) :
    (∀ s, SystemReachable allowRB modifierPairedKeys s →
        ¬(s.mouse.isMakingGesture = true ∧ s.trackpad.isMakingGesture = true))
      ∧ (∀ (ms : MouseState) (tr : TrackerState) (g : GestureState)
          (b : ButtonId) (lvl : ℤ) (pos : ℂ) (now : ℝ) (act : WindowInfo)
          (mods : List ℕ), ms.isMakingGesture = false →
          (handleHookMouseButtonPressing allowRB ms tr g b lvl pos now act
            mods).2.1.isMakingGesture = true →
          g.gestureSource = none)
      ∧ (∀ (tr : TrackerState) (tp : TrackpadState) (g : GestureState)
          (new : FingerMap) (t : ℝ) (act : WindowInfo),
          tp.isMakingGesture = false →
          (handleHookTrackpadFingerPositionsUpdating tr tp g new t
            act).trackpad.isMakingGesture = true →
          g.gestureSource = none)
      ∧ (∀ (ms : MouseState) (tr : TrackerState) (g : GestureState)
          (b : ButtonId) (lvl : ℤ) (pos : ℂ) (now : ℝ) (act : WindowInfo)
          (mods : List ℕ) (x : GestureSource), g.gestureSource = some x →
          (handleHookMouseButtonPressing allowRB ms tr g b lvl pos now act
              mods).2.2.2.1.gestureSource = some x
            ∧ (handleHookMouseButtonPressing allowRB ms tr g b lvl pos now act
                mods).2.1.isMakingGesture = ms.isMakingGesture)
      ∧ (∀ (tr : TrackerState) (tp : TrackpadState) (g : GestureState)
          (new : FingerMap) (t : ℝ) (act : WindowInfo) (x : GestureSource),
          g.gestureSource = some x → tp.isMakingGesture = false →
          (handleHookTrackpadFingerPositionsUpdating tr tp g new t
              act).gesture.gestureSource = some x
            ∧ (handleHookTrackpadFingerPositionsUpdating tr tp g new t
                act).trackpad.isMakingGesture = false) := by
  refine ⟨?_, ?_, ?_, ?_, ?_⟩
  · intro s hs hboth
    have hinv := system_sourceConsistent allowRB modifierPairedKeys s hs
    have h1 := hinv.1.mpr hboth.1
    have h2 := hinv.2.mpr hboth.2
    rw [h1] at h2
    simp at h2
  · intro ms tr g b lvl pos now act mods hms hpost
    by_cases hc : b = .rightButton ∧ lvl = 1 ∧ allowRB = true
        ∧ g.gestureSource = none
    · exact hc.2.2.2
    · have hmg := buttonPressing_no_gesture allowRB ms tr g b lvl pos now act
        mods hc
      rw [hmg.1, hms] at hpost
      exact absurd hpost (by simp)
  · intro tr tp g new t act htp hpost
    by_cases h1 : g.gestureSource = none
    · exact h1
    · have hH : handleHookTrackpadFingerPositionsUpdating tr tp g new t act
          = trackpadPostPhase tr (trackpadStoreCurr tp new) g new t none [] := by
        unfold handleHookTrackpadFingerPositionsUpdating
        rw [if_neg (by simp [htp])]
      rw [hH] at hpost
      unfold trackpadPostPhase at hpost
      rw [if_pos h1] at hpost
      have : (trackpadStoreCurr tp new).isMakingGesture = false := htp
      rw [this] at hpost
      exact absurd hpost (by simp)
  · intro ms tr g b lvl pos now act mods x hx
    have hmg := buttonPressing_no_gesture allowRB ms tr g b lvl pos now act
      mods (by rw [hx]; simp)
    rw [hmg.1, hmg.2]
    exact ⟨hx, rfl⟩
  · intro tr tp g new t act x hx htp
    have hH : handleHookTrackpadFingerPositionsUpdating tr tp g new t act
        = trackpadPostPhase tr (trackpadStoreCurr tp new) g new t none [] := by
      unfold handleHookTrackpadFingerPositionsUpdating
      rw [if_neg (by simp [htp])]
    rw [hH]
    unfold trackpadPostPhase
    rw [if_pos (by rw [hx]; simp)]
    exact ⟨hx, htp⟩

/-- Witness for C5 at the initial system state, which is reachable. -/
theorem C5_single_gesture_source_witness :
    ¬((initialSystemState 0 0 0 0).mouse.isMakingGesture = true
      ∧ (initialSystemState 0 0 0 0).trackpad.isMakingGesture = true) :=
  (C5_single_gesture_source false ∅).1 (initialSystemState 0 0 0 0)
    (SystemReachable.base 0 0 0 0)

/-- Every sleep performed by the takeover poll is at most 2 s long. -/
lemma pollSleepsAux_le_two (alive : ℕ → Bool) :
    ∀ (fuel : ℕ) (w : ℚ) (n : ℕ), ∀ x ∈ (pollSleepsAux alive fuel w n).2, x ≤ 2 := by
  intro fuel
  induction fuel with
  | zero => intro w n x hx; simp [pollSleepsAux] at hx
  | succ fuel ih =>
      intro w n x hx
      unfold pollSleepsAux at hx
      split_ifs at hx with h1 h2
      · rcases List.mem_cons.mp hx with h | h
        · rw [h]; exact h1
        · exact ih (2 * w) (n + 1) x h
      · rw [List.mem_singleton.mp hx]; exact h1
      · simp at hx

/-- When the old process never exits, the poll runs out and no probe reports
    it gone. -/
lemma pollSleepsAux_never_exits (alive : ℕ → Bool)
    (halive : ∀ n, alive n = true) :
    ∀ (fuel : ℕ) (w : ℚ) (n : ℕ), (pollSleepsAux alive fuel w n).1 = false := by
  intro fuel
  induction fuel with
  | zero => intro w n; rfl
  | succ fuel ih =>
      intro w n
      unfold pollSleepsAux
      split_ifs with h1 h2
      · exact ih (2 * w) (n + 1)
      · rw [halive n] at h2; exact absurd rfl h2
      · rfl

/-- C8 counterexample: with the old process never exiting, the poll sleeps
    0.125 + 0.25 + 0.5 + 1 + 2 = 3.875 s in total before failing, which is not
    capped at about 2 s. -/
theorem C8_total_wait_counterexample :
    (pollSleeps (fun _ => true)).sum = 31/8 ∧ ¬((31/8 : ℚ) ≤ 2) := by
  have h : pollSleeps (fun _ => true) = [1/8, 1/4, 1/2, 1, 2] := by
    unfold pollSleeps
    norm_num [pollSleepsAux]
  rw [h]
  norm_num

/-- C8 amended: the poll sleeps double from 0.125 s while each sleep is at
    most 2 s (so the maximal schedule is 0.125, 0.25, 0.5, 1, 2 totalling
    3.875 s, not ~2 s); if the process never exits the routine fails with an
    error reporting the offending process id, and a process seen gone at a
    probe ends the poll successfully. -/
theorem C8_instance_takeover_poll (pid : ℤ) (alive : ℕ → Bool) :
    pollSleeps (fun _ => true) = [1/8, 1/4, 1/2, 1, 2]
      ∧ (pollSleeps (fun _ => true)).sum = 31/8
      ∧ (∀ w ∈ pollSleeps alive, w ≤ 2)
      ∧ ((∀ n, alive n = true) → terminateOutcome pid alive = Except.error pid)
      ∧ (alive 0 = false →
          terminateOutcome pid alive = Except.ok () ∧ pollSleeps alive = [1/8]) := by
  have hsch : pollSleeps (fun _ => true) = [1/8, 1/4, 1/2, 1, 2] := by
    unfold pollSleeps
    norm_num [pollSleepsAux]
  refine ⟨hsch, by rw [hsch]; norm_num, pollSleepsAux_le_two alive 8 (1/8) 0, ?_, ?_⟩
  · intro halive
    unfold terminateOutcome
    rw [pollSleepsAux_never_exits alive halive 8 (1/8) 0]
    rfl
  · intro h0
    constructor
    · unfold terminateOutcome
      norm_num [pollSleepsAux, h0]
    · unfold pollSleeps
      norm_num [pollSleepsAux, h0]

/-- Witness for C8: a process that never exits produces the fatal outcome
    carrying its pid. -/
theorem C8_instance_takeover_poll_witness :
    terminateOutcome 7 (fun _ => true) = Except.error 7 :=
  (C8_instance_takeover_poll 7 (fun _ => true)).2.2.2.1 (fun _ => rfl)

/-- The sticky-expiry callback is a no-op when a different key was the last
    dual-role press. -/
lemma fireStickyCallback_noop (cfg : AppConfig) (st : KeyboardState) (k : ℤ)
    (h : st.lastMod ≠ k) : fireStickyCallback cfg st k = (st, []) := by
  unfold fireStickyCallback
  rw [if_neg h]

/-- When the key is still the last dual-role press and modifiers are held with
    stickies latched, the callback performs the full reset: mask pulse, then
    release of every held modifier. -/
lemma fireStickyCallback_fire (cfg : AppConfig) (st : KeyboardState) (k : ℤ)
    (h : st.lastMod = k) (hne : st.pressedMods ≠ ∅)
    (hst : st.hasStickies = true) :
    (fireStickyCallback cfg st k).1.pressedMods = ∅
      ∧ (fireStickyCallback cfg st k).1.hasStickies = false
      ∧ (fireStickyCallback cfg st k).2
        = (touchKey true cfg.keyMask ++ touchKey false cfg.keyMask)
          ++ (st.pressedMods.sort (· ≤ ·)).flatMap (touchKey false) := by
  unfold fireStickyCallback releasePressedMods
  rw [if_pos h, if_neg hne, if_pos hst]
  exact ⟨rfl, rfl, rfl⟩

/-- C1 counterexample: a continuous in-window release of a sticky dual-role
    key latches (stickiesLatched becomes true and the callback is scheduled),
    but lastDualRoleKey is not set to the key: it keeps its prior value 99, so
    the scheduled callback is a no-op even though no newer dual-role press
    occurred. -/
theorem C1_sticky_latch_counterexample :
    (handleListenerRelease ⟨[10], 50, 1/4, 1, 1⟩
        ⟨{10}, false, fun j => if j = 5 then some (0, 10, 20, true) else none,
          (0, 5), 99, fun _ => 0, ∅, false⟩ 5 (1/2)).1.hasStickies = true
      ∧ (handleListenerRelease ⟨[10], 50, 1/4, 1, 1⟩
          ⟨{10}, false, fun j => if j = 5 then some (0, 10, 20, true) else none,
            (0, 5), 99, fun _ => 0, ∅, false⟩ 5 (1/2)).2.1 = [(1, 5)]
      ∧ (handleListenerRelease ⟨[10], 50, 1/4, 1, 1⟩
          ⟨{10}, false, fun j => if j = 5 then some (0, 10, 20, true) else none,
            (0, 5), 99, fun _ => 0, ∅, false⟩ 5 (1/2)).1.lastMod = 99
      ∧ (fireStickyCallback ⟨[10], 50, 1/4, 1, 1⟩
          (handleListenerRelease ⟨[10], 50, 1/4, 1, 1⟩
            ⟨{10}, false, fun j => if j = 5 then some (0, 10, 20, true) else none,
              (0, 5), 99, fun _ => 0, ∅, false⟩ 5 (1/2)).1 5)
        = ((handleListenerRelease ⟨[10], 50, 1/4, 1, 1⟩
            ⟨{10}, false, fun j => if j = 5 then some (0, 10, 20, true) else none,
              (0, 5), 99, fun _ => 0, ∅, false⟩ 5 (1/2)).1, []) := by
  refine ⟨?_, ?_, ?_, ?_⟩ <;>
    norm_num [handleListenerRelease, handleReleaseWithRecord,
      clearLastPressIfContinuous, fireStickyCallback]

/-- C1 amended: under the latch conditions (sticky record, continuous release,
    stickiesLatched or a hold duration in [MIN_STICKY, MAX_STICKY)), the
    release sets stickiesLatched, schedules exactly one callback after
    STICKY_DURATION capturing the key, emits nothing, and leaves lastDualRoleKey
    and the pressed modifiers unchanged (lastDualRoleKey was set at dual-press
    time, so it equals the key in the ordinary flow); the callback is a no-op
    when lastDualRoleKey differs from the key at fire time, and otherwise
    releases exactly the modifiers held at fire time (unchanged since latch
    when nothing intervened), after the masking pulse. -/
theorem C1_sticky_latch (cfg : AppConfig) (st : KeyboardState) (k : ℤ)
    (now tp : ℚ) (outK tapK : ℤ)
    (hrec : st.pressedKeys k = some (tp, outK, tapK, true))
    (hcont : st.lastPress.2 = k)
    (hwin : st.hasStickies = true
      ∨ (cfg.minStickyTriggerDuration ≤ now - tp
        ∧ now - tp < cfg.maxStickyTriggerDuration)) :
    (handleListenerRelease cfg st k now).1.hasStickies = true
      ∧ (handleListenerRelease cfg st k now).2.1 = [(cfg.stickyDuration, k)]
      ∧ (handleListenerRelease cfg st k now).2.2 = []
      ∧ (handleListenerRelease cfg st k now).1.lastMod = st.lastMod
      ∧ (handleListenerRelease cfg st k now).1.pressedMods = st.pressedMods
      ∧ (st.lastMod ≠ k →
          fireStickyCallback cfg (handleListenerRelease cfg st k now).1 k
            = ((handleListenerRelease cfg st k now).1, []))
      ∧ (st.lastMod = k → st.pressedMods ≠ ∅ →
          (fireStickyCallback cfg (handleListenerRelease cfg st k now).1
              k).1.pressedMods = ∅
            ∧ (fireStickyCallback cfg (handleListenerRelease cfg st k now).1
                k).1.hasStickies = false
            ∧ (fireStickyCallback cfg (handleListenerRelease cfg st k now).1
                k).2
              = (touchKey true cfg.keyMask ++ touchKey false cfg.keyMask)
                ++ (st.pressedMods.sort (· ≤ ·)).flatMap (touchKey false)) := by
  have hstep : handleListenerRelease cfg st k now
      = handleReleaseWithRecord cfg
          { st with pressedKeys := Function.update st.pressedKeys k none }
          k now tp outK tapK true := by
    unfold handleListenerRelease
    rw [hrec]
  have hmain : handleListenerRelease cfg st k now
      = ({ st with
            pressedKeys := Function.update st.pressedKeys k none,
            hasStickies := true, lastPress := (0, -1) },
          [(cfg.stickyDuration, k)], []) := by
    rw [hstep]
    unfold handleReleaseWithRecord
    rw [if_pos ⟨rfl, hcont, hwin⟩]
    unfold clearLastPressIfContinuous
    rw [if_pos (by rw [hcont]; simp)]
  rw [hmain]
  refine ⟨rfl, rfl, rfl, rfl, rfl, ?_, ?_⟩
  · intro hne
    exact fireStickyCallback_noop cfg _ k hne
  · intro heq hne
    exact fireStickyCallback_fire cfg _ k heq hne rfl

/-- Witness for C1 in the ordinary flow where the released key was the last
    dual-role press: the latch fires and the expiry releases the held
    modifier. -/
theorem C1_sticky_latch_witness :
    (fireStickyCallback ⟨[10], 50, 1/4, 1, 1⟩
        (handleListenerRelease ⟨[10], 50, 1/4, 1, 1⟩
          ⟨{10}, false, fun j => if j = 5 then some (0, 10, 20, true) else none,
            (0, 5), 5, fun _ => 0, ∅, false⟩ 5 (1/2)).1 5).1.pressedMods
      = ∅ := by
  have h := C1_sticky_latch ⟨[10], 50, 1/4, 1, 1⟩
    ⟨{10}, false, fun j => if j = 5 then some (0, 10, 20, true) else none,
      (0, 5), 5, fun _ => 0, ∅, false⟩ 5 (1/2) 0 10 20 (by norm_num) rfl
    (Or.inr (by norm_num))
  exact (h.2.2.2.2.2.2 rfl (by decide)).1

/-- Replaying a concatenation replays the parts in order. -/
lemma applyTouches_append (a b : List (Bool × ℤ)) (h : ℤ → Bool) :
    applyTouches (a ++ b) h = applyTouches b (applyTouches a h) :=
  List.foldl_append _ _ _ _

/-- Pointwise effect of the per-modifier block of touch_mods. -/
lemma applyTouches_touchModsHead (m : ℤ) (p : Bool)
    (outMods pressedMods : Finset ℤ) (host : ℤ → Bool) (j : ℤ) :
    applyTouches
        (if decide (m ∈ outMods) ≠ decide (m ∈ pressedMods) then
          touchKey (p == decide (m ∈ outMods)) m
        else []) host j
      = if j = m ∧ m < 0x100 ∧ decide (m ∈ outMods) ≠ decide (m ∈ pressedMods)
        then p == decide (m ∈ outMods)
        else host j := by
  by_cases hd : decide (m ∈ outMods) ≠ decide (m ∈ pressedMods)
  · rw [if_pos hd]
    unfold touchKey
    by_cases hv : (0x100 : ℤ) ≤ m
    · rw [if_pos hv, if_neg (fun hc => absurd hc.2.1 (not_lt.mpr hv))]
      rfl
    · rw [if_neg hv]
      by_cases hj : j = m
      · subst hj
        rw [if_pos ⟨rfl, not_le.mp hv, hd⟩]
        simp [applyTouches, Function.update]
      · rw [if_neg (fun hc => hj hc.1)]
        simp [applyTouches, Function.update, hj]
  · rw [if_neg hd, if_neg (fun hc => hd hc.2.2)]
    rfl

/-- Pointwise effect of touch_mods over a duplicate-free modifier list: a
    configured real modifier whose needed/held membership differs is set to
    should_press == needed, everything else keeps its state. -/
lemma applyTouches_touchMods (p : Bool) (outMods pressedMods : Finset ℤ) :
    ∀ (mods : List ℤ), mods.Nodup → ∀ (host : ℤ → Bool) (k : ℤ),
      applyTouches (touchMods p outMods pressedMods mods) host k
        = if k ∈ mods ∧ k < 0x100
              ∧ decide (k ∈ outMods) ≠ decide (k ∈ pressedMods)
          then p == decide (k ∈ outMods)
          else host k := by
  intro mods
  induction mods with
  | nil => intro _ host k; simp [touchMods, applyTouches]
  | cons m rest ih =>
      intro hnd host k
      have hmrest : m ∉ rest := (List.nodup_cons.mp hnd).1
      have hndrest : rest.Nodup := (List.nodup_cons.mp hnd).2
      have hsplit : touchMods p outMods pressedMods (m :: rest)
          = (if decide (m ∈ outMods) ≠ decide (m ∈ pressedMods) then
              touchKey (p == decide (m ∈ outMods)) m
            else []) ++ touchMods p outMods pressedMods rest := by
        simp [touchMods]
      rw [hsplit, applyTouches_append, ih hndrest, applyTouches_touchModsHead]
      by_cases hk : k ∈ rest
      · by_cases hA : k < 0x100 ∧ decide (k ∈ outMods) ≠ decide (k ∈ pressedMods)
        · rw [if_pos ⟨hk, hA.1, hA.2⟩, if_pos ⟨List.mem_cons_of_mem m hk, hA.1, hA.2⟩]
        · have hknm : k ≠ m := fun hc => hmrest (hc ▸ hk)
          rw [if_neg (fun hc => hA ⟨hc.2.1, hc.2.2⟩),
            if_neg (fun hc => hknm hc.1),
            if_neg (fun hc => hA ⟨hc.2.1, hc.2.2⟩)]
      · by_cases hkm : k = m
        · subst hkm
          by_cases hB : k < 0x100 ∧ decide (k ∈ outMods) ≠ decide (k ∈ pressedMods)
          · rw [if_neg (fun hc => hk hc.1), if_pos ⟨rfl, hB.1, hB.2⟩,
              if_pos ⟨List.mem_cons_self k rest, hB.1, hB.2⟩]
          · rw [if_neg (fun hc => hk hc.1), if_neg (fun hc => hB ⟨hc.2.1, hc.2.2⟩),
              if_neg (fun hc => hB ⟨hc.2.1, hc.2.2⟩)]
        · rw [if_neg (fun hc => hk hc.1), if_neg (fun hc => hkm hc.1),
            if_neg (fun hc => (List.mem_cons.mp hc.1).elim hkm hk)]

/-- C4 counterexample: with shift (vk 56) externally held and a combo needing
    no modifiers, press_combo releases the held shift before the key press and
    re-presses it afterwards, so the pre-existing modifier's pressed state IS
    touched during the combo. -/
theorem C4_press_combo_counterexample :
    pressCombo 4 ∅ {56} [56] = [(false, 56), (true, 4), (true, 56)]
      ∧ (56 : ℤ) ∈ ({56} : Finset ℤ)
      ∧ ((false, 56) ∈ pressCombo 4 ∅ {56} [56]) := by
  refine ⟨?_, by decide, ?_⟩ <;> decide

/-- C4 amended: during a combo the host modifier state is driven to exactly
    the combo's needed set (a held modifier also needed is never touched, a
    held modifier not needed is released and later re-pressed), the output key
    is pressed in between, and after the combo every configured modifier is
    back to its prior state: the net effect on the host is exactly one press
    of the output key. -/
theorem C4_press_combo_modifiers (mods : List ℤ) (hnd : mods.Nodup)
    (outKey : ℤ) (hko : outKey ∉ mods) (hkr : outKey < 0x100)
    (outMods pressedMods : Finset ℤ) (host : ℤ → Bool)
    (hhost : ∀ m ∈ mods, host m = decide (m ∈ pressedMods)) :
    (∀ m ∈ mods, m ∈ pressedMods → m ∈ outMods →
        ∀ q, (q, m) ∉ pressCombo outKey outMods pressedMods mods)
      ∧ (∀ m ∈ mods, m < 0x100 →
          applyTouches (touchMods true outMods pressedMods mods) host m
            = decide (m ∈ outMods))
      ∧ applyTouches (pressCombo outKey outMods pressedMods mods) host
          = Function.update host outKey true := by
  refine ⟨?_, ?_, ?_⟩
  · intro m hm hp ho q hq
    rcases List.mem_append.mp hq with hq | hq
    · rcases List.mem_append.mp hq with hq | hq
      · obtain ⟨m', hm', hin⟩ := List.mem_flatMap.mp hq
        by_cases hc : decide (m' ∈ outMods) ≠ decide (m' ∈ pressedMods)
        · rw [if_pos hc] at hin
          unfold touchKey at hin
          by_cases hv : (0x100 : ℤ) ≤ m'
          · rw [if_pos hv] at hin
            simp at hin
          · rw [if_neg hv] at hin
            simp at hin
            apply hc
            rw [← hin.2]
            simp [hp, ho]
        · rw [if_neg hc] at hin
          simp at hin
      · unfold touchKey at hq
        by_cases hv : (0x100 : ℤ) ≤ outKey
        · rw [if_pos hv] at hq
          simp at hq
        · rw [if_neg hv] at hq
          simp at hq
          exact hko (hq.2 ▸ hm)
    · obtain ⟨m', hm', hin⟩ := List.mem_flatMap.mp hq
      by_cases hc : decide (m' ∈ outMods) ≠ decide (m' ∈ pressedMods)
      · rw [if_pos hc] at hin
        unfold touchKey at hin
        by_cases hv : (0x100 : ℤ) ≤ m'
        · rw [if_pos hv] at hin
          simp at hin
        · rw [if_neg hv] at hin
          simp at hin
          apply hc
          rw [← hin.2]
          simp [hp, ho]
      · rw [if_neg hc] at hin
        simp at hin
  · intro m hm hlt
    rw [applyTouches_touchMods true outMods pressedMods mods hnd host m]
    by_cases hd : decide (m ∈ outMods) ≠ decide (m ∈ pressedMods)
    · rw [if_pos ⟨hm, hlt, hd⟩]
      simp
    · rw [if_neg (fun hc => hd hc.2.2)]
      rw [hhost m hm]
      exact (not_ne_iff.mp hd).symm
  · funext k
    unfold pressCombo
    rw [applyTouches_append, applyTouches_append,
      applyTouches_touchMods false outMods pressedMods mods hnd]
    have hkey : ∀ (h : ℤ → Bool) (j : ℤ),
        applyTouches (touchKey true outKey) h j
          = if j = outKey then true else h j := by
      intro h j
      unfold touchKey
      rw [if_neg (not_le.mpr hkr)]
      simp [applyTouches, Function.update]
    rw [hkey]
    by_cases hk : k = outKey
    · subst hk
      rw [if_neg (fun hc => hko hc.1), if_pos rfl]
      simp [Function.update]
    · rw [Function.update_apply, if_neg hk]
      by_cases hin : k ∈ mods ∧ k < 0x100
          ∧ decide (k ∈ outMods) ≠ decide (k ∈ pressedMods)
      · rw [if_pos hin]
        rw [hhost k hin.1]
        have hd := hin.2.2
        rcases Bool.eq_false_or_eq_true (decide (k ∈ outMods)) with ha | ha <;>
          rcases Bool.eq_false_or_eq_true (decide (k ∈ pressedMods)) with hb | hb <;>
            rw [ha, hb] at hd ⊢ <;> simp_all
      · rw [if_neg hin, if_neg hk,
          applyTouches_touchMods true outMods pressedMods mods hnd, if_neg hin]

/-- Witness for C4: the counterexample scenario restores shift after the
    combo and nets exactly one press of the output key. -/
theorem C4_press_combo_modifiers_witness :
    applyTouches (pressCombo 4 ∅ {56} [56])
        (fun m => decide (m ∈ ({56} : Finset ℤ)))
      = Function.update (fun m => decide (m ∈ ({56} : Finset ℤ))) 4 true := by
  have h := C4_press_combo_modifiers [56] (by decide) 4 (by decide) (by decide)
    ∅ {56} (fun m => decide (m ∈ ({56} : Finset ℤ)))
    (fun m hm => rfl)
  exact h.2.2
